import Mathlib

/-
Verification of the AKIPS device-import reconciliation engine
(`jobs/akips_import.py`).

The development is a shallow embedding of the job: the inventory store
(sites, devices, virtual chassis, device types, roles, manufacturers,
platforms) is an explicit record of lists, Django query-set operations
(`get`, `filter(...).first()`, `count`) become list operations whose
pick-first order is list order, and the job's mutation of `self.stats`
and of the store is explicit state passing through `JobState`.

Modelling notes, faithful to the source:
  - Python strings are `String`; `split('-')`, `upper()`, `lower()`,
    `strip()` are re-implemented structurally (ASCII range, which is the
    range the job's data uses) so that every definition evaluates inside
    the kernel.
  - Python `int(...)` is `pyInt?` (whitespace, optional sign, digits);
    a failed conversion is an uncaught exception, which an `Option`
    result propagates.
  - Django object identity is a numeric id drawn from a store counter;
    `Device.objects.create` / `VirtualChassis.objects.create` append a
    fresh record (the Device table of the target system has no
    database-level name-uniqueness for a null tenant, so a duplicate
    name insert succeeds).
  - Device types are modelled by their model string under the single
    Juniper manufacturer that the job uses.
  - `self.log_warning` calls are recorded in `Stats.logWarnings`;
    the list `self.stats[warnings]` is `Stats.warnings`.  Log text is
    kept close to the source with quote punctuation elided.
-/

/-! ## Python string primitives -/

def splitCharList (sep : Char) : List Char → List (List Char)
  | [] => [[]]
  | c :: cs =>
    let r := splitCharList sep cs
    if c == sep then [] :: r
    else
      match r with
      | h :: t => (c :: h) :: t
      | [] => [[c]]

/-- Python `s.split('-')`. -/
def pySplitDash (s : String) : List String :=
  (splitCharList '-' s.toList).map (fun cs => String.mk cs)

/-- Python `s.upper()` (ASCII). -/
def pyUpper (s : String) : String := String.mk (s.toList.map Char.toUpper)

/-- Python `s.lower()` (ASCII). -/
def pyLower (s : String) : String := String.mk (s.toList.map Char.toLower)

def isPySpace (c : Char) : Bool :=
  c == ' ' || c == '\t' || c == '\n' || c == '\r'

/-- Python `s.strip()`. -/
def pyTrim (s : String) : String :=
  String.mk (((s.toList.dropWhile isPySpace).reverse.dropWhile isPySpace).reverse)

def digitsVal? (cs : List Char) : Option Nat :=
  if cs.isEmpty then none
  else
    cs.foldl
      (fun acc c =>
        match acc with
        | none => none
        | some n => if c.isDigit then some (n * 10 + (c.toNat - 48)) else none)
      (some 0)

/-- Python `int(s)`: strip, optional sign, decimal digits; `none` is the
`ValueError` case. -/
def pyInt? (s : String) : Option Int :=
  match (pyTrim s).toList with
  | '-' :: rest => (digitsVal? rest).map (fun n => -(n : Int))
  | '+' :: rest => (digitsVal? rest).map (fun n => (n : Int))
  | cs => (digitsVal? cs).map (fun n => (n : Int))

/-- First character of a token is a digit (`part[0].isdigit()` guarded by
`part` being non-empty truthy). -/
def firstCharDigit (s : String) : Bool :=
  match s.toList with
  | c :: _ => c.isDigit
  | [] => false

/-! ## Data model: store records -/

structure SiteE where
  name : String
  facility : String
  region : Option String
deriving DecidableEq

structure DeviceE where
  devId : Nat
  name : String
  device_role : String
  device_type : String
  platform : String
  serial : String
  site : Option String
  region : Option String
  virtual_chassis : Option Nat
  vc_position : Option Int
  vc_priority : Option Nat
  comments : String
deriving DecidableEq

structure VCE where
  vcId : Nat
  name : String
  master : Option Nat
  domain : String
deriving DecidableEq

structure PlatformE where
  name : String
  slug : String
deriving DecidableEq

structure Store where
  sites : List SiteE
  devices : List DeviceE
  vcs : List VCE
  deviceTypes : List String
  roles : List String
  manufacturers : List String
  platforms : List PlatformE
  nextId : Nat
deriving DecidableEq

/-! ## Data model: job state -/

structure SerialMismatchR where
  device : String
  member_id : Int
  expected_serial : String
  actual_serial : String
deriving DecidableEq

structure VcMismatchR where
  vc : String
  issue : String
  expected : Nat
  actual : Nat
deriving DecidableEq

structure Stats where
  devices_created : Nat
  devices_updated : Nat
  devices_skipped : Nat
  virtual_chassis_created : Nat
  virtual_chassis_updated : Nat
  errors : List String
  warnings : List String
  serial_mismatches : List SerialMismatchR
  vc_mismatches : List VcMismatchR
  logWarnings : List String
deriving DecidableEq

def Stats.start : Stats :=
  { devices_created := 0, devices_updated := 0, devices_skipped := 0,
    virtual_chassis_created := 0, virtual_chassis_updated := 0,
    errors := [], warnings := [], serial_mismatches := [], vc_mismatches := [],
    logWarnings := [] }

structure JobState where
  store : Store
  stats : Stats
  create_missing : Bool
deriving DecidableEq

def logWarn (st : JobState) (msg : String) : JobState :=
  { st with stats := { st.stats with logWarnings := st.stats.logWarnings ++ [msg] } }

/-- One parsed CSV row (a member of a device group). -/
structure Member where
  device_name : String
  member_id : Int
  model : String
  software : String
  serial : String
  mac_addr : String
  role : String
  location : String
deriving DecidableEq

/-! ## Store queries -/

def sitesExact (s : Store) (facility_code : String) : List SiteE :=
  s.sites.filter (fun site => site.facility == facility_code)

def sitesIexact (s : Store) (facility_code : String) : List SiteE :=
  s.sites.filter (fun site => pyUpper site.facility == pyUpper facility_code)

/-- `_check_site_exists`: `Site.objects.get(facility=...)`, falling back to a
case-insensitive `filter(...).first()` on `DoesNotExist` and to
`filter(facility=...).first()` on `MultipleObjectsReturned`. -/
def _check_site_exists (s : Store) (facility_code : String) : Option SiteE :=
  match sitesExact s facility_code with
  | [site] => some site
  | [] => (sitesIexact s facility_code).head?
  | site :: _ :: _ => some site

def devNamed (s : Store) (n : String) : Option DeviceE :=
  s.devices.find? (fun d => d.name == n)

def deviceById (s : Store) (i : Nat) : Option DeviceE :=
  s.devices.find? (fun d => d.devId == i)

/-- `Device.objects.get(name=...)`: succeeds only on a unique match. -/
def devGetUnique (s : Store) (n : String) : Option DeviceE :=
  match s.devices.filter (fun d => d.name == n) with
  | [d] => some d
  | _ => none

/-- `VirtualChassis.objects.filter(master__name=...).first()`. -/
def vcByMasterName (s : Store) (n : String) : Option VCE :=
  s.vcs.find? (fun vc =>
    match vc.master with
    | some i =>
      match deviceById s i with
      | some d => d.name == n
      | none => false
    | none => false)

/-- Members attached to a virtual chassis
(`Device.objects.filter(virtual_chassis=vc)`). -/
def attachedCount (s : Store) (vcId : Nat) : Nat :=
  (s.devices.filter (fun d => d.virtual_chassis == some vcId)).length

/-- `member_device.save()`: replace the row with this primary key. -/
def saveDevice (s : Store) (d : DeviceE) : Store :=
  { s with devices := s.devices.map (fun x => if x.devId == d.devId then d else x) }

/-! ## Identifier parsing -/

/-- The token walk of `parse_facility_code`: stop on a digit-leading token,
otherwise try the uppercased token against the site table. -/
def facilityScan (s : Store) : List String → Option String
  | [] => none
  | part :: rest =>
    if part ≠ "" && firstCharDigit part then none
    else
      let facility_code := pyUpper part
      match _check_site_exists s facility_code with
      | some _ => some facility_code
      | none => facilityScan s rest

/-- `parse_facility_code`: split on the dash, skip the role token, and walk
the remaining tokens one at a time. -/
def parse_facility_code (s : Store) (device_name : String) : Option String :=
  let parts := pySplitDash device_name
  if parts.length < 3 then none
  else facilityScan s (parts.drop 1)

/-- `extract_device_role`: fixed mapping on the lowered first token with an
Access default. -/
def extract_device_role (device_name : String) : String :=
  let first_part := pyLower ((pySplitDash device_name).headD "")
  if first_part == "accs" then "Access"
  else if first_part == "dist" then "Distribution"
  else if first_part == "core" then "Core"
  else if first_part == "edge" then "Edge"
  else if first_part == "aggr" then "Aggregation"
  else "Access"

/-- The role table of `extract_device_role`, as data (used to state C9). -/
def role_mapping : List (String × String) :=
  [("accs", "Access"), ("dist", "Distribution"), ("core", "Core"),
   ("edge", "Edge"), ("aggr", "Aggregation")]

/-- `get_or_create_device_role`: lookup only; a missing role logs a warning
and yields `none` (despite the name, nothing is created). -/
def get_or_create_device_role (st : JobState) (role_name : String) :
    Option String × JobState :=
  if st.store.roles.contains role_name then (some role_name, st)
  else (none, logWarn st (s!"DeviceRole {role_name} not found. Please create it manually."))

/-! ## Device types and platform -/

def ensureJuniper (s : Store) : Store :=
  if s.manufacturers.contains "Juniper" then s
  else { s with manufacturers := s.manufacturers ++ ["Juniper"] }

def dtLookupExact (dts : List String) (m : String) : Option String :=
  (dts.filter (fun d => d == m)).head?

def dtLookupIexact (dts : List String) (m : String) : Option String :=
  (dts.filter (fun d => pyUpper d == pyUpper m)).head?

/-- The pure lookup chain of `get_or_create_device_type`: the four exact
attempts in order, then the two case-insensitive fallbacks. -/
def dtLookupChain (dts : List String) (model_name : String) : Option String :=
  let normalized_model := pyUpper model_name
  let attempts := [model_name, normalized_model,
                   "Juniper " ++ normalized_model, "Juniper " ++ model_name]
  match (attempts.filterMap (dtLookupExact dts)).head? with
  | some d => some d
  | none =>
    match dtLookupIexact dts normalized_model with
    | some d => some d
    | none => dtLookupIexact dts ("Juniper " ++ normalized_model)

/-- `get_or_create_device_type`: ensure the Juniper manufacturer, run the
lookup chain, and create `Juniper <MODEL>` only when `create_missing`. -/
def get_or_create_device_type (st : JobState) (model_name : String) :
    Option String × JobState :=
  let st := { st with store := ensureJuniper st.store }
  match dtLookupChain st.store.deviceTypes model_name with
  | some d => (some d, st)
  | none =>
    if st.create_missing then
      let full_model_name := "Juniper " ++ pyUpper model_name
      (some full_model_name,
       { st with store :=
          { st.store with deviceTypes := st.store.deviceTypes ++ [full_model_name] } })
    else
      (none,
       logWarn st (s!"DeviceType for model {model_name} not found. Enable create_missing_objects or create it manually."))

/-- `get_platform`: by slug, then by name, else create (which needs the
Juniper manufacturer; its absence is an uncaught exception). -/
def get_platform_s (s : Store) : Option (String × Store) :=
  match s.platforms.find? (fun p => p.slug == "juniper-junos") with
  | some p => some (p.name, s)
  | none =>
    match s.platforms.find? (fun p => p.name == "Juniper_junos") with
    | some p => some (p.name, s)
    | none =>
      if s.manufacturers.contains "Juniper" then
        some ("Juniper_junos",
          { s with platforms := s.platforms ++ [{ name := "Juniper_junos", slug := "juniper-junos" }] })
      else none

/-- `find_site_by_facility_code`. -/
def find_site_by_facility_code (s : Store) (facility_code : Option String) :
    Option SiteE × Option String :=
  match facility_code with
  | none => (none, none)
  | some fc =>
    if fc == "" then (none, none)
    else
      match _check_site_exists s fc with
      | some site => (some site, site.region)
      | none => (none, none)

/-! ## CSV parsing (`parse_csv`) -/

/-- A raw CSV row: `none` fields are missing columns (or short rows, which
`DictReader` fills with `None`). -/
structure RawRow where
  device : Option String
  id : Option String
  model : Option String
  software : Option String
  serial : Option String
  mac : Option String
  role : Option String
  location : Option String
deriving DecidableEq

/-- One row of `parse_csv`; `none` is the uncaught `KeyError` /
`ValueError` / `AttributeError` of the source. -/
def parseRow (r : RawRow) : Option Member := do
  let device ← r.device
  let idS ← r.id
  let member_id ← pyInt? idS
  let model ← r.model
  let software ← r.software
  let serial ← r.serial
  let mac ← r.mac
  let role ← r.role
  pure { device_name := pyTrim device, member_id := member_id,
         model := pyTrim model, software := pyTrim software,
         serial := pyTrim serial, mac_addr := pyTrim mac,
         role := pyTrim role, location := pyTrim (r.location.getD "") }

def addToGroups (gs : List (String × List Member)) (m : Member) :
    List (String × List Member) :=
  if gs.any (fun g => g.1 == m.device_name) then
    gs.map (fun g => if g.1 == m.device_name then (g.1, g.2 ++ [m]) else g)
  else gs ++ [(m.device_name, [m])]

/-- Stable insertion used to model Python's stable `list.sort`. -/
def insertByLe (m : Member) : List Member → List Member
  | [] => [m]
  | x :: xs =>
    if m.member_id ≤ x.member_id then m :: x :: xs else x :: insertByLe m xs

def sortMembers (ms : List Member) : List Member := ms.foldr insertByLe []

/-- The row loop of `parse_csv`: rows are parsed in order and a malformed
row is an uncaught exception, so the whole result is `none`. -/
def parseRows : List RawRow → Option (List Member)
  | [] => some []
  | r :: rest =>
    match parseRow r with
    | none => none
    | some m =>
      match parseRows rest with
      | none => none
      | some ms => some (m :: ms)

/-- `parse_csv`: parse every row, group by device name in first-seen
order, then sort each group by member id. -/
def parse_csv (rows : List RawRow) : Option (List (String × List Member)) :=
  match parseRows rows with
  | none => none
  | some ms => some ((ms.foldl addToGroups []).map (fun g => (g.1, sortMembers g.2)))

/-! ## Reconciliation engine -/

/-- `1 if role == master else (1 if role == backup else None)`. -/
def vcPriorityFor (role : String) : Option Nat :=
  if pyLower role == "master" then some 1
  else if pyLower role == "backup" then some 1
  else none

def mkComments (m : Member) : String :=
  let software := m.software
  let mac := m.mac_addr
  let loc := m.location
  s!"Software: {software}\nMAC: {mac}\nLocation: {loc}"

/-- `create_device`: resolve the device type, then create the member device
under the position-suffixed name `device_name-member_id`. -/
def create_device (st : JobState) (device_name : String) (member_data : Member)
    (device_role platform : String) (site region : Option String) :
    Option DeviceE × JobState :=
  match get_or_create_device_type st member_data.model with
  | (none, st) =>
    (none,
     { st with stats :=
        { st.stats with
          errors := st.stats.errors ++ [s!"Cannot create device {device_name} without DeviceType"],
          devices_skipped := st.stats.devices_skipped + 1 } })
  | (some device_type, st) =>
    let member_device_name := device_name ++ "-" ++ toString member_data.member_id
    let d : DeviceE :=
      { devId := st.store.nextId, name := member_device_name,
        device_role := device_role, device_type := device_type,
        platform := platform, serial := member_data.serial,
        site := site, region := region,
        virtual_chassis := none, vc_position := none, vc_priority := none,
        comments := mkComments member_data }
    (some d,
     (let store2 := { st.store with devices := st.store.devices ++ [d], nextId := st.store.nextId + 1 }
      let stats2 := { st.stats with devices_created := st.stats.devices_created + 1 }
      { st with store := store2, stats := stats2 }))

/-- The shared create-a-member block of `create_virtual_chassis` and
`verify_and_update_virtual_chassis`: resolve the device type (skipping the
member when it does not resolve) and create the device attached to the
chassis at its member position. -/
def createMemberIn (st : JobState) (vc : VCE) (member_device_name : String)
    (member_data : Member) (device_role platform : String)
    (site region : Option String) : JobState :=
  match get_or_create_device_type st member_data.model with
  | (none, st) => st
  | (some device_type, st) =>
    let d : DeviceE :=
      { devId := st.store.nextId, name := member_device_name,
        device_role := device_role, device_type := device_type,
        platform := platform, serial := member_data.serial,
        site := site, region := region,
        virtual_chassis := some vc.vcId,
        vc_position := some member_data.member_id,
        vc_priority := vcPriorityFor member_data.role,
        comments := mkComments member_data }
    let store2 := { st.store with devices := st.store.devices ++ [d], nextId := st.store.nextId + 1 }
    let stats2 := { st.stats with devices_created := st.stats.devices_created + 1 }
    { st with store := store2, stats := stats2 }

/-- One iteration of the member loop of `create_virtual_chassis`: update an
existing `vc_name-id` device in place, else create it. -/
def cvcStep (vc : VCE) (device_role platform : String) (site region : Option String)
    (st : JobState) (member_data : Member) : JobState :=
  let member_device_name := vc.name ++ "-" ++ toString member_data.member_id
  match devNamed st.store member_device_name with
  | some member_device =>
    let md := { member_device with
                virtual_chassis := some vc.vcId,
                vc_position := some member_data.member_id,
                vc_priority := vcPriorityFor member_data.role }
    { st with store := saveDevice st.store md }
  | none =>
    createMemberIn st vc member_device_name member_data device_role platform site region

/-- The chassis record `create_virtual_chassis` creates. -/
def cvcNewVC (st : JobState) (vc_name : String) (master_device : DeviceE) : VCE :=
  { vcId := st.store.nextId, name := vc_name,
    master := some master_device.devId, domain := vc_name }

/-- The state after `VirtualChassis.objects.create`. -/
def cvcInit (st : JobState) (vc : VCE) : JobState :=
  { st with store := { st.store with vcs := st.store.vcs ++ [vc], nextId := st.store.nextId + 1 } }

/-- `create_virtual_chassis`: create the chassis with the given master,
process every member, then re-point the master to the device named after
the first (lowest-id) member.  The trailing `Device.objects.get` (and the
`members[0]` indexing) are the exception points the surrounding
`try/except` converts into a recorded error. -/
def create_virtual_chassis (st : JobState) (vc_name : String)
    (master_device : DeviceE) (members : List Member)
    (site region : Option String) : Option VCE × JobState :=
  let vc : VCE := cvcNewVC st vc_name master_device
  let st := cvcInit st vc
  let device_role := master_device.device_role
  let platform := master_device.platform
  let st := members.foldl (cvcStep vc device_role platform site region) st
  match members with
  | [] =>
    (none,
     { st with stats :=
        { st.stats with errors := st.stats.errors ++ [s!"Failed to create virtual chassis {vc_name}"] } })
  | m0 :: _ =>
    let master_device_name := vc_name ++ "-" ++ toString m0.member_id
    match devGetUnique st.store master_device_name with
    | none =>
      (none,
       { st with stats :=
          { st.stats with errors := st.stats.errors ++ [s!"Failed to create virtual chassis {vc_name}"] } })
    | some actual_master =>
      let st :=
        if vc.master == some actual_master.devId then st
        else
          let newVcs := st.store.vcs.map
            (fun v => if v.vcId == vc.vcId then { v with master := some actual_master.devId } else v)
          { st with store := { st.store with vcs := newVcs } }
      (some vc,
       { st with stats :=
          { st.stats with virtual_chassis_created := st.stats.virtual_chassis_created + 1 } })

/-- The warning text for a member `verify_and_update_virtual_chassis`
cannot find. -/
def member_not_found_msg (member_device_name : String) : String :=
  s!"Member device not found: {member_device_name}"

/-- One iteration of the member loop of `verify_and_update_virtual_chassis`:
create a missing member (warning first), else compare serial and position,
recording a serial mismatch and only logging a position mismatch. -/
def verifyStep (vc : VCE) (device_role platform : String) (site region : Option String)
    (st : JobState) (member_data : Member) : JobState :=
  let member_device_name := vc.name ++ "-" ++ toString member_data.member_id
  match devNamed st.store member_device_name with
  | none =>
    let st := logWarn st (member_not_found_msg member_device_name)
    createMemberIn st vc member_device_name member_data device_role platform site region
  | some member_device =>
    let st :=
      if member_device.serial ≠ member_data.serial then
        let r : SerialMismatchR :=
          { device := member_device_name, member_id := member_data.member_id,
            expected_serial := member_data.serial,
            actual_serial := member_device.serial }
        let st :=
          { st with stats :=
             { st.stats with serial_mismatches := st.stats.serial_mismatches ++ [r] } }
        logWarn st (s!"Serial mismatch for {member_device_name}")
      else st
    if member_device.vc_position ≠ some member_data.member_id then
      logWarn st (s!"VC position mismatch for {member_device_name}")
    else st

/-- `verify_and_update_virtual_chassis`. -/
def verify_and_update_virtual_chassis (st : JobState) (vc : VCE)
    (members : List Member) (device_role platform : String)
    (site region : Option String) : JobState :=
  let vcCount := attachedCount st.store vc.vcId
  let st :=
    if vcCount ≠ members.length then
      let vcn := vc.name
      let st := logWarn st (s!"Member count mismatch for {vcn}")
      { st with stats :=
         { st.stats with vc_mismatches := st.stats.vc_mismatches ++
            [{ vc := vc.name, issue := "member_count",
               expected := members.length, actual := vcCount }] } }
    else st
  let st := members.foldl (verifyStep vc device_role platform site region) st
  { st with stats :=
     { st.stats with virtual_chassis_updated := st.stats.virtual_chassis_updated + 1 } }

/-- The no-site warning block at the top of `process_virtual_chassis`. -/
def siteWarnState (st : JobState) (device_name : String)
    (site? : Option SiteE) (facility_code : Option String) : JobState :=
  match site? with
  | none =>
    let fcs := match facility_code with | some f => f | none => "None"
    let w := s!"No site found for facility code {fcs} (device: {device_name})"
    let st := logWarn st w
    { st with stats := { st.stats with warnings := st.stats.warnings ++ [w] } }
  | some _ => st

/-- The early return of `process_virtual_chassis` when the device role
cannot be resolved: record the error and skip every member. -/
def roleErrorState (st : JobState) (device_name : String) (members : List Member) : JobState :=
  { st with stats :=
     { st.stats with
       errors := st.stats.errors ++ [s!"Cannot proceed without DeviceRole for {device_name}"],
       devices_skipped := st.stats.devices_skipped + members.length } }

/-- The serial check of the existing-bare-device branch of
`process_virtual_chassis`. -/
def bareSerialCheck (st : JobState) (device_name : String)
    (master_member : Member) (existing_device : DeviceE) : JobState :=
  if existing_device.serial ≠ master_member.serial then
    let r : SerialMismatchR :=
      { device := device_name, member_id := master_member.member_id,
        expected_serial := master_member.serial,
        actual_serial := existing_device.serial }
    let st :=
      { st with stats :=
         { st.stats with serial_mismatches := st.stats.serial_mismatches ++ [r] } }
    logWarn st (s!"Serial mismatch for {device_name}")
  else st

/-- The three-way state machine of `process_virtual_chassis`, entered once
the role and platform have been resolved (`members[0]` on an empty group
is an uncaught exception). -/
def processWithRole (st : JobState) (device_name : String) (members : List Member)
    (device_role platform : String) (sr : Option SiteE × Option String) :
    Option JobState :=
  match members with
  | [] => none
  | m0 :: _ =>
    let master_member := (members.find? (fun m => pyLower m.role == "master")).getD m0
    let site := sr.1.map (fun s => s.name)
    let region := sr.2
    match vcByMasterName st.store device_name with
    | some existing_vc =>
      some (verify_and_update_virtual_chassis st existing_vc members
              device_role platform site region)
    | none =>
      match devNamed st.store device_name with
      | some existing_device =>
        let st := bareSerialCheck st device_name master_member existing_device
        if members.length > 1 then
          some (create_virtual_chassis st device_name existing_device members site region).2
        else
          some { st with stats :=
                  { st.stats with devices_updated := st.stats.devices_updated + 1 } }
      | none =>
        match create_device st device_name master_member device_role platform site region with
        | (some master_device, st) =>
          if members.length > 1 then
            some (create_virtual_chassis st device_name master_device members site region).2
          else some st
        | (none, st) => some st

/-- `process_virtual_chassis`: the per-group driver.  `none` is an
exception escaping the group (an unresolvable platform, or an empty
group), which aborts the whole run.  Note that `get_platform` runs before
the role check, as in the source. -/
def process_virtual_chassis (st : JobState) (device_name : String)
    (members : List Member) : Option JobState :=
  let facility_code := parse_facility_code st.store device_name
  let sr := find_site_by_facility_code st.store facility_code
  let st := siteWarnState st device_name sr.1 facility_code
  match get_or_create_device_role st (extract_device_role device_name) with
  | (none, st) =>
    match get_platform_s st.store with
    | none => none
    | some (_, store') => some (roleErrorState { st with store := store' } device_name members)
  | (some device_role, st) =>
    match get_platform_s st.store with
    | none => none
    | some (platform, store') =>
      processWithRole { st with store := store' } device_name members device_role platform sr

/-- The group loop of `run`. -/
def processGroups (st : JobState) : List (String × List Member) → Option JobState
  | [] => some st
  | (n, ms) :: rest =>
    match process_virtual_chassis st n ms with
    | none => none
    | some st' => processGroups st' rest

def startState (store : Store) (create_missing : Bool) : JobState :=
  { store := store, stats := Stats.start, create_missing := create_missing }

/-- `run`: parse the CSV (a parse failure aborts the job) and process each
group in order. -/
def runJob (create_missing : Bool) (store : Store) (rows : List RawRow) :
    Option JobState :=
  match parse_csv rows with
  | none => none
  | some groups => processGroups (startState store create_missing) groups

/-! ## Generic fold and list lemmas -/

theorem foldl_proj_eq {σ α β : Type _} (f : σ → α → σ) (proj : σ → β)
    (h : ∀ s a, proj (f s a) = proj s) :
    ∀ (l : List α) (s : σ), proj (l.foldl f s) = proj s := by
  intro l
  induction l with
  | nil => intro s; rfl
  | cons a t ih => intro s; rw [List.foldl_cons, ih, h]

theorem foldl_inv {σ α : Type _} (f : σ → α → σ) (I : σ → Prop)
    (h : ∀ s a, I s → I (f s a)) :
    ∀ (l : List α) (s : σ), I s → I (l.foldl f s) := by
  intro l
  induction l with
  | nil => intro s hs; exact hs
  | cons a t ih => intro s hs; exact ih (f s a) (h s a hs)

theorem foldl_rel {σ α : Type _} (f : σ → α → σ) (R : σ → σ → Prop)
    (hrefl : ∀ s, R s s) (htrans : ∀ a b c, R a b → R b c → R a c)
    (hstep : ∀ s a, R s (f s a)) :
    ∀ (l : List α) (s : σ), R s (l.foldl f s) := by
  intro l
  induction l with
  | nil => intro s; exact hrefl s
  | cons a t ih => intro s; exact htrans _ _ _ (hstep s a) (ih (f s a))

theorem find?_eq_head?_filter {α : Type _} (p : α → Bool) :
    ∀ (l : List α), l.find? p = (l.filter p).head? := by
  intro l
  induction l with
  | nil => rfl
  | cons a t ih =>
    by_cases h : p a
    · rw [List.find?_cons_of_pos _ h, List.filter_cons_of_pos h]; rfl
    · rw [List.find?_cons_of_neg _ h, List.filter_cons_of_neg h, ih]

theorem find?_append_right_none {α : Type _} (p : α → Bool) (l l₂ : List α)
    (h : l₂.find? p = none) : (l ++ l₂).find? p = l.find? p := by
  rw [List.find?_append, h, Option.or_none]

theorem find?_append_left_some {α : Type _} (p : α → Bool) (l l₂ : List α) (x : α)
    (h : l.find? p = some x) : (l ++ l₂).find? p = some x := by
  rw [List.find?_append, h]; rfl

/-! ## String helper lemmas -/

theorem append_dash_ne (a b : String) : a ++ "-" ++ b ≠ a := by
  intro h
  have hlen := congrArg String.length h
  rw [String.length_append, String.length_append] at hlen
  have : ("-" : String).length = 1 := by decide
  omega

theorem append_left_cancel_str (a b c : String) (h : a ++ b = a ++ c) : b = c := by
  have hd := congrArg String.data h
  simp [String.data_append] at hd
  exact String.ext hd

/-! ## Frame lemmas for the collaborator helpers -/

theorem ensureJuniper_deviceTypes (s : Store) :
    (ensureJuniper s).deviceTypes = s.deviceTypes := by
  unfold ensureJuniper; split <;> rfl

theorem godt_frame (st : JobState) (m : String) :
    ((get_or_create_device_type st m).2).store.devices = st.store.devices ∧
    ((get_or_create_device_type st m).2).store.vcs = st.store.vcs ∧
    ((get_or_create_device_type st m).2).store.nextId = st.store.nextId ∧
    ((get_or_create_device_type st m).2).store.sites = st.store.sites ∧
    ((get_or_create_device_type st m).2).store.roles = st.store.roles ∧
    ((get_or_create_device_type st m).2).store.platforms = st.store.platforms ∧
    ((get_or_create_device_type st m).2).stats.devices_created = st.stats.devices_created ∧
    ((get_or_create_device_type st m).2).stats.devices_updated = st.stats.devices_updated ∧
    ((get_or_create_device_type st m).2).stats.devices_skipped = st.stats.devices_skipped ∧
    ((get_or_create_device_type st m).2).stats.virtual_chassis_created = st.stats.virtual_chassis_created ∧
    ((get_or_create_device_type st m).2).stats.virtual_chassis_updated = st.stats.virtual_chassis_updated ∧
    ((get_or_create_device_type st m).2).stats.errors = st.stats.errors ∧
    ((get_or_create_device_type st m).2).stats.warnings = st.stats.warnings ∧
    ((get_or_create_device_type st m).2).stats.serial_mismatches = st.stats.serial_mismatches ∧
    ((get_or_create_device_type st m).2).stats.vc_mismatches = st.stats.vc_mismatches ∧
    ((get_or_create_device_type st m).2).create_missing = st.create_missing := by
  simp only [get_or_create_device_type, logWarn]
  split
  · unfold ensureJuniper; split <;> simp
  · split
    · unfold ensureJuniper; split <;> simp
    · unfold ensureJuniper; split <;> simp

theorem godt_eq_of_chain_some (st : JobState) (m d : String)
    (h : dtLookupChain st.store.deviceTypes m = some d) :
    get_or_create_device_type st m = (some d, { st with store := ensureJuniper st.store }) := by
  unfold get_or_create_device_type
  simp only [ensureJuniper_deviceTypes, h]

theorem godt_deviceTypes_of_chain_some (st : JobState) (m d : String)
    (h : dtLookupChain st.store.deviceTypes m = some d) :
    ((get_or_create_device_type st m).2).store.deviceTypes = st.store.deviceTypes := by
  rw [godt_eq_of_chain_some st m d h]
  exact ensureJuniper_deviceTypes st.store

theorem get_platform_s_shape (s : Store) (p : String) (s' : Store)
    (h : get_platform_s s = some (p, s')) :
    s'.devices = s.devices ∧ s'.vcs = s.vcs ∧ s'.nextId = s.nextId ∧
    s'.deviceTypes = s.deviceTypes ∧ s'.roles = s.roles ∧ s'.sites = s.sites ∧
    s'.manufacturers = s.manufacturers := by
  unfold get_platform_s at h
  split at h
  · have h2 := congrArg Prod.snd (Option.some.inj h)
    subst h2; exact ⟨rfl, rfl, rfl, rfl, rfl, rfl, rfl⟩
  · split at h
    · have h2 := congrArg Prod.snd (Option.some.inj h)
      subst h2; exact ⟨rfl, rfl, rfl, rfl, rfl, rfl, rfl⟩
    · split at h
      · have h2 := congrArg Prod.snd (Option.some.inj h)
        subst h2; exact ⟨rfl, rfl, rfl, rfl, rfl, rfl, rfl⟩
      · exact absurd h (by simp)

/-! ## C9: role classification -/

/-- C9: for every identifier the role class is the lowered first
dash-separated token looked up in the fixed table
accs/dist/core/edge/aggr, any other token giving the Access default; in
particular sw-x-1 gives Access and dist-ho-414-1 gives Distribution. -/
theorem c9_role_classification :
    (∀ device_name : String,
        extract_device_role device_name =
          (((role_mapping.find?
               (fun p => p.1 == pyLower ((pySplitDash device_name).headD ""))).map
              Prod.snd).getD "Access"))
    ∧ (∀ device_name : String,
        pyLower ((pySplitDash device_name).headD "") ∉ role_mapping.map Prod.fst →
        extract_device_role device_name = "Access")
    ∧ extract_device_role "sw-x-1" = "Access"
    ∧ extract_device_role "dist-ho-414-1" = "Distribution" := by
  have main : ∀ device_name : String,
      extract_device_role device_name =
        (((role_mapping.find?
             (fun p => p.1 == pyLower ((pySplitDash device_name).headD ""))).map
            Prod.snd).getD "Access") := by
    intro dn
    simp only [extract_device_role]
    set t := pyLower ((pySplitDash dn).headD "") with ht
    by_cases h1 : t = "accs"
    · rw [h1]; decide
    · by_cases h2 : t = "dist"
      · rw [h2]; decide
      · by_cases h3 : t = "core"
        · rw [h3]; decide
        · by_cases h4 : t = "edge"
          · rw [h4]; decide
          · by_cases h5 : t = "aggr"
            · rw [h5]; decide
            · have e1 : (t == "accs") = false := beq_eq_false_iff_ne.mpr h1
              have e2 : (t == "dist") = false := beq_eq_false_iff_ne.mpr h2
              have e3 : (t == "core") = false := beq_eq_false_iff_ne.mpr h3
              have e4 : (t == "edge") = false := beq_eq_false_iff_ne.mpr h4
              have e5 : (t == "aggr") = false := beq_eq_false_iff_ne.mpr h5
              have f1 : (("accs" : String) == t) = false := beq_eq_false_iff_ne.mpr (Ne.symm h1)
              have f2 : (("dist" : String) == t) = false := beq_eq_false_iff_ne.mpr (Ne.symm h2)
              have f3 : (("core" : String) == t) = false := beq_eq_false_iff_ne.mpr (Ne.symm h3)
              have f4 : (("edge" : String) == t) = false := beq_eq_false_iff_ne.mpr (Ne.symm h4)
              have f5 : (("aggr" : String) == t) = false := beq_eq_false_iff_ne.mpr (Ne.symm h5)
              simp [role_mapping, List.find?, e1, e2, e3, e4, e5, f1, f2, f3, f4, f5]
  refine ⟨main, ?_, by decide, by decide⟩
  intro dn hnot
  rw [main dn]
  have : role_mapping.find?
      (fun p => p.1 == pyLower ((pySplitDash dn).headD "")) = none := by
    apply List.find?_eq_none.mpr
    intro p hp
    simp only [beq_iff_eq]
    intro hcontr
    exact hnot (hcontr ▸ List.mem_map_of_mem Prod.fst hp)
  rw [this]; rfl

/-- Witness for the conditional part of C9. -/
theorem c9_role_classification_witness :
    extract_device_role "sw-x-1" = "Access" :=
  c9_role_classification.2.1 "sw-x-1" (by decide)

/-! ## C2: facility parsing -/

def c2store : Store :=
  { sites := [{ name := "Arlington Tower", facility := "ARL-ART", region := none }],
    devices := [], vcs := [], deviceTypes := [], roles := [], manufacturers := [],
    platforms := [], nextId := 0 }

def joinDash : List String → String
  | [] => ""
  | [s] => s
  | s :: rest => s ++ "-" ++ joinDash rest

/-- Modelled from the spec (structural facility mode, Section 4.2): split
the identifier on the delimiter, drop the role token, accumulate tokens
until one begins with a digit, and return the accumulated tokens joined
and uppercased; absent when the run is empty or fewer than 3 tokens
exist.  Stated only to compare with `parse_facility_code`. -/
def facility_structural_spec (device_name : String) : Option String :=
  let parts := pySplitDash device_name
  if parts.length < 3 then none
  else
    let run := (parts.drop 1).takeWhile (fun p => !(firstCharDigit p))
    if run.isEmpty then none
    else some (pyUpper (joinDash run))

/-- C2 counterexample: on accs-arl-art-1550-1 the structural description
demands ARL-ART, but `parse_facility_code` tries each token individually
against the site table and returns none even when a site with facility
code ARL-ART exists. -/
theorem c2_counterexample :
    parse_facility_code c2store "accs-arl-art-1550-1" = none ∧
    facility_structural_spec "accs-arl-art-1550-1" = some "ARL-ART" ∧
    parse_facility_code c2store "accs-arl-art-1550-1" ≠
      facility_structural_spec "accs-arl-art-1550-1" := by
  refine ⟨by decide, by decide, by decide⟩

theorem facilityScan_sound (s : Store) :
    ∀ (l : List String) (fc : String), facilityScan s l = some fc →
      ∃ part ∈ l, fc = pyUpper part ∧ (_check_site_exists s fc).isSome := by
  intro l
  induction l with
  | nil => intro fc h; exact absurd h (by simp [facilityScan])
  | cons p rest ih =>
    intro fc h
    rw [facilityScan] at h
    by_cases hd : (p ≠ "" && firstCharDigit p) = true
    · rw [if_pos hd] at h; exact absurd h (by simp)
    · rw [if_neg hd] at h
      dsimp only at h
      cases hc : _check_site_exists s (pyUpper p) with
      | some site =>
        rw [hc] at h
        have hfc : pyUpper p = fc := Option.some.inj h
        refine ⟨p, List.mem_cons_self p rest, hfc.symm, ?_⟩
        rw [← hfc, hc]; rfl
      | none =>
        rw [hc] at h
        obtain ⟨part, hmem, h1, h2⟩ := ih fc h
        exact ⟨part, List.mem_cons_of_mem _ hmem, h1, h2⟩

/-- C2 (amended): `parse_facility_code` is the lookup-confirmed mode: it
returns none on identifiers of fewer than 3 tokens, any code it returns is
a single non-first token uppercased that resolves in the site table, and
with HO resolvable accs-ho-414-1 gives HO. -/
theorem c2_amended_lookup_confirmed :
    (∀ (s : Store) (dn : String), (pySplitDash dn).length < 3 →
        parse_facility_code s dn = none)
    ∧ (∀ (s : Store) (dn fc : String), parse_facility_code s dn = some fc →
        ∃ part ∈ (pySplitDash dn).drop 1,
          fc = pyUpper part ∧ (_check_site_exists s fc).isSome)
    ∧ (∀ s : Store, (_check_site_exists s "HO").isSome →
        parse_facility_code s "accs-ho-414-1" = some "HO") := by
  refine ⟨?_, ?_, ?_⟩
  · intro s dn h
    simp only [parse_facility_code]
    rw [if_pos h]
  · intro s dn fc h
    simp only [parse_facility_code] at h
    by_cases hlen : (pySplitDash dn).length < 3
    · rw [if_pos hlen] at h; exact absurd h (by simp)
    · rw [if_neg hlen] at h
      exact facilityScan_sound s _ fc h
  · intro s hs
    obtain ⟨site, hsite⟩ := Option.isSome_iff_exists.mp hs
    have hsplit : pySplitDash "accs-ho-414-1" = ["accs", "ho", "414", "1"] := by decide
    have h1 : parse_facility_code s "accs-ho-414-1" = facilityScan s ["ho", "414", "1"] := by
      simp only [parse_facility_code]
      rw [hsplit]
      rw [if_neg (by decide)]
      rfl
    rw [h1, facilityScan]
    rw [if_neg (by decide)]
    dsimp only
    have hup : pyUpper "ho" = "HO" := by decide
    rw [hup, hsite]

def c2wstore : Store :=
  { sites := [{ name := "Holmes Hall", facility := "HO", region := some "Main" }],
    devices := [], vcs := [], deviceTypes := [], roles := [], manufacturers := [],
    platforms := [], nextId := 0 }

/-- Witness for C2 (amended). -/
theorem c2_amended_witness :
    parse_facility_code c2wstore "accs-ho-414-1" = some "HO" :=
  c2_amended_lookup_confirmed.2.2 c2wstore (by decide)

/-! ## C3: malformed rows -/

/-- A row with a missing required column or a member id that `int` cannot
parse. -/
def rowMalformed (r : RawRow) : Bool :=
  r.device.isNone || r.model.isNone || r.software.isNone || r.serial.isNone ||
  r.mac.isNone || r.role.isNone ||
  (match r.id with
   | none => true
   | some s => (pyInt? s).isNone)

theorem parseRow_none_of_malformed (r : RawRow) (h : rowMalformed r = true) :
    parseRow r = none := by
  unfold parseRow
  cases hd : r.device with
  | none => rfl
  | some dv =>
    cases hi : r.id with
    | none => rfl
    | some idv =>
      cases hpi : pyInt? idv with
      | none => simp [hpi]
      | some n =>
        cases hm : r.model with
        | none => simp [hpi]
        | some mv =>
          cases hsw : r.software with
          | none => simp [hpi]
          | some swv =>
            cases hse : r.serial with
            | none => simp [hpi]
            | some sev =>
              cases hmac : r.mac with
              | none => simp [hpi]
              | some macv =>
                cases hr : r.role with
                | none => simp [hpi]
                | some rv =>
                  exfalso
                  unfold rowMalformed at h
                  rw [hd, hi, hm, hsw, hse, hmac, hr] at h
                  simp [hpi] at h

theorem parseRows_eq_none :
    ∀ (l : List RawRow) (r : RawRow), r ∈ l → parseRow r = none →
      parseRows l = none := by
  intro l
  induction l with
  | nil => intro r hr _; exact absurd hr (List.not_mem_nil r)
  | cons x xs ih =>
    intro r hr hfr
    rw [parseRows]
    rcases List.mem_cons.mp hr with h | h
    · subst h; rw [hfr]
    · cases hx : parseRow x with
      | none => rfl
      | some m => rw [ih r h hfr]

/-- C3 (amended): a row with a missing required column or a non-integer
member id is an uncaught exception inside `parse_csv`: no grouping is
produced, and the whole run aborts instead of skipping the row. -/
theorem c3_amended_malformed_aborts :
    (∀ (rows : List RawRow) (r : RawRow), r ∈ rows → rowMalformed r = true →
        parse_csv rows = none)
    ∧ (∀ (cm : Bool) (store : Store) (rows : List RawRow) (r : RawRow),
        r ∈ rows → rowMalformed r = true → runJob cm store rows = none) := by
  have h1 : ∀ (rows : List RawRow) (r : RawRow), r ∈ rows → rowMalformed r = true →
      parse_csv rows = none := by
    intro rows r hr hm
    unfold parse_csv
    rw [parseRows_eq_none rows r hr (parseRow_none_of_malformed r hm)]
  refine ⟨h1, ?_⟩
  intro cm store rows r hr hm
  unfold runJob
  rw [h1 rows r hr hm]

def emptyStore : Store :=
  { sites := [], devices := [], vcs := [], deviceTypes := [], roles := [],
    manufacturers := [], platforms := [], nextId := 0 }

def c3goodRow : RawRow :=
  { device := some "accs-ho-414-1", id := some "0", model := some "EX4300-48P",
    software := some "20.4", serial := some "S1", mac := some "aa:bb",
    role := some "master", location := some "" }

def c3badRow : RawRow := { c3goodRow with id := some "abc" }

/-- C3 counterexample: with one well-formed row and one row whose ID is not
an integer, the run aborts entirely (no groups, no processing of the good
row), while the claim demands that only the bad row be dropped. -/
theorem c3_counterexample :
    parse_csv [c3goodRow, c3badRow] = none ∧
    runJob false emptyStore [c3goodRow, c3badRow] = none ∧
    (parse_csv [c3goodRow]).isSome = true := by
  refine ⟨by decide, by decide, by decide⟩

/-- Witness for C3 (amended). -/
theorem c3_amended_witness :
    runJob false emptyStore [c3goodRow, c3badRow] = none :=
  c3_amended_malformed_aborts.2 false emptyStore [c3goodRow, c3badRow] c3badRow
    (by decide) (by decide)

/-! ## C1: idempotence of a second run -/

def c1store : Store :=
  { sites := [{ name := "Holmes Hall", facility := "HO", region := some "Main" }],
    devices := [], vcs := [], deviceTypes := ["EX4300-48P"], roles := ["Access"],
    manufacturers := ["Juniper"],
    platforms := [{ name := "Juniper_junos", slug := "juniper-junos" }],
    nextId := 0 }

def c1row (dev id ser role : String) : RawRow :=
  { device := some dev, id := some id, model := some "EX4300-48P",
    software := some "20.4", serial := some ser, mac := some "aa:bb",
    role := some role, location := some "" }

def c1rowsSingle : List RawRow := [c1row "accs-ho-414-1" "0" "S1" "master"]

def c1rowsMulti : List RawRow :=
  [c1row "accs-ho-414-2" "0" "S1" "master", c1row "accs-ho-414-2" "1" "S2" "backup"]

/-- C1 (the code contradicts the claim): the first run creates members
under position-suffixed names, but the existence checks of
`process_virtual_chassis` look up the bare group identifier, so a second
run over the store left by the first run re-enters the create path: it
creates a duplicate device (devices_created = 1, a second row with the
same name), performs no validation (devices_updated = 0,
virtual_chassis_updated = 0, no mismatch records), and in the multi-member
case creates a duplicate chassis row and then records a failure. -/
theorem c1_second_run_not_validated :
    ((runJob false c1store c1rowsSingle).map
        (fun s => (s.stats.devices_created, s.store.devices.map (fun d => d.name))))
      = some (1, ["accs-ho-414-1-0"]) ∧
    (((runJob false c1store c1rowsSingle).bind
         (fun s1 => runJob false s1.store c1rowsSingle)).map
        (fun s2 => (s2.stats.devices_created, s2.store.devices.map (fun d => d.name))))
      = some (1, ["accs-ho-414-1-0", "accs-ho-414-1-0"]) ∧
    (((runJob false c1store c1rowsSingle).bind
         (fun s1 => runJob false s1.store c1rowsSingle)).map
        (fun s2 => (s2.stats.devices_updated, s2.stats.virtual_chassis_updated)))
      = some (0, 0) ∧
    (((runJob false c1store c1rowsSingle).bind
         (fun s1 => runJob false s1.store c1rowsSingle)).map
        (fun s2 => (s2.stats.serial_mismatches.length, s2.stats.vc_mismatches.length)))
      = some (0, 0) ∧
    (((runJob false c1store c1rowsMulti).bind
         (fun s1 => runJob false s1.store c1rowsMulti)).map
        (fun s2 => (s2.stats.devices_created, s2.stats.virtual_chassis_updated)))
      = some (1, 0) ∧
    (((runJob false c1store c1rowsMulti).bind
         (fun s1 => runJob false s1.store c1rowsMulti)).map
        (fun s2 => (s2.stats.errors.length, s2.store.vcs.length)))
      = some (1, 2) := by
  refine ⟨by decide, by decide, by decide, by decide, by decide, by decide⟩

/-! ## C7: site resolver, counterexample -/

def c7store : Store :=
  { sites := [{ name := "SiteA", facility := "HO", region := some "R1" },
              { name := "SiteB", facility := "HO", region := some "R1" }],
    devices := [], vcs := [], deviceTypes := ["EX4300-48P"], roles := ["Access"],
    manufacturers := ["Juniper"],
    platforms := [{ name := "Juniper_junos", slug := "juniper-junos" }],
    nextId := 0 }

def c7member : Member :=
  { device_name := "accs-ho-414-1", member_id := 0, model := "EX4300-48P",
    software := "20.4", serial := "S1", mac_addr := "aa:bb", role := "master",
    location := "" }

/-- C7 counterexample: two site records share the facility code HO; the
resolver silently picks the first and the whole group is processed with no
warning of any kind recorded, while the claim demands an AmbiguousMatch
warning on multiple matches. -/
theorem c7_counterexample :
    (sitesExact c7store "HO").length = 2 ∧
    _check_site_exists c7store "HO" =
      some { name := "SiteA", facility := "HO", region := some "R1" } ∧
    ((process_virtual_chassis (startState c7store false) "accs-ho-414-1" [c7member]).map
        (fun s => (s.stats.warnings, s.stats.logWarnings))) = some ([], []) := by
  refine ⟨by decide, by decide, by decide⟩

/-! ## C8: unresolved role is group-fatal but isolated -/

theorem siteWarnState_frame (st : JobState) (dn : String)
    (site? : Option SiteE) (fc : Option String) :
    (siteWarnState st dn site? fc).store = st.store ∧
    (siteWarnState st dn site? fc).stats.errors = st.stats.errors ∧
    (siteWarnState st dn site? fc).stats.devices_skipped = st.stats.devices_skipped ∧
    (siteWarnState st dn site? fc).stats.devices_created = st.stats.devices_created ∧
    (siteWarnState st dn site? fc).stats.devices_updated = st.stats.devices_updated ∧
    (siteWarnState st dn site? fc).stats.serial_mismatches = st.stats.serial_mismatches ∧
    (siteWarnState st dn site? fc).stats.vc_mismatches = st.stats.vc_mismatches ∧
    (siteWarnState st dn site? fc).stats.virtual_chassis_created = st.stats.virtual_chassis_created ∧
    (siteWarnState st dn site? fc).stats.virtual_chassis_updated = st.stats.virtual_chassis_updated ∧
    (siteWarnState st dn site? fc).create_missing = st.create_missing := by
  unfold siteWarnState logWarn
  split <;> simp

theorem gocdr_eq_none (st : JobState) (role_name : String)
    (h : st.store.roles.contains role_name = false) :
    get_or_create_device_role st role_name =
      (none, logWarn st (s!"DeviceRole {role_name} not found. Please create it manually.")) := by
  unfold get_or_create_device_role
  rw [h]
  simp

theorem gocdr_eq_some (st : JobState) (role_name : String)
    (h : st.store.roles.contains role_name = true) :
    get_or_create_device_role st role_name = (some role_name, st) := by
  unfold get_or_create_device_role
  rw [h]
  simp

/-- C8: when the device-role record of a group cannot be resolved, the
whole group is marked with one recorded error, all its members are
counted skipped, no device and no chassis is created or touched, and the
run continues with the remaining groups. -/
theorem c8_unresolved_role_isolated (st : JobState) (dn : String)
    (members : List Member) (p : String) (s' : Store)
    (hrole : st.store.roles.contains (extract_device_role dn) = false)
    (hplat : get_platform_s st.store = some (p, s')) :
    ∃ st', process_virtual_chassis st dn members = some st' ∧
      st'.stats.errors = st.stats.errors ++ [s!"Cannot proceed without DeviceRole for {dn}"] ∧
      st'.stats.devices_skipped = st.stats.devices_skipped + members.length ∧
      st'.store.devices = st.store.devices ∧
      st'.store.vcs = st.store.vcs ∧
      st'.stats.devices_created = st.stats.devices_created ∧
      st'.stats.virtual_chassis_created = st.stats.virtual_chassis_created ∧
      (∀ rest, processGroups st ((dn, members) :: rest) = processGroups st' rest) := by
  obtain ⟨hstore, herr, hskip, hcre, hupd, hsm, hvm, hvcc, hvcu, hcm⟩ :=
    siteWarnState_frame st dn
      (find_site_by_facility_code st.store (parse_facility_code st.store dn)).1
      (parse_facility_code st.store dn)
  have hg := gocdr_eq_none
    (siteWarnState st dn
      (find_site_by_facility_code st.store (parse_facility_code st.store dn)).1
      (parse_facility_code st.store dn))
    (extract_device_role dn) (by rw [hstore]; exact hrole)
  have hkey : process_virtual_chassis st dn members =
      some (roleErrorState
        { logWarn (siteWarnState st dn
            (find_site_by_facility_code st.store (parse_facility_code st.store dn)).1
            (parse_facility_code st.store dn))
            (s!"DeviceRole {extract_device_role dn} not found. Please create it manually.") with
          store := s' } dn members) := by
    simp only [process_virtual_chassis]
    rw [hg]
    dsimp only [logWarn]
    rw [hstore, hplat]
  obtain ⟨hpd, hpv, hpn, hpt, hpr, hpsit, hpm⟩ := get_platform_s_shape st.store p s' hplat
  refine ⟨_, hkey, ?_, ?_, ?_, ?_, ?_, ?_, ?_⟩
  · simp [roleErrorState, logWarn, herr]
  · simp [roleErrorState, logWarn, hskip]
  · simp [roleErrorState, logWarn, hpd]
  · simp [roleErrorState, logWarn, hpv]
  · simp [roleErrorState, logWarn, hcre]
  · simp [roleErrorState, logWarn, hvcc]
  · intro rest
    simp [processGroups, hkey]

def c8store : Store :=
  { sites := [], devices := [], vcs := [], deviceTypes := [], roles := [],
    manufacturers := ["Juniper"],
    platforms := [{ name := "Juniper_junos", slug := "juniper-junos" }],
    nextId := 0 }

def c8member : Member :=
  { device_name := "accs-x-1-1", member_id := 0, model := "EX4300-48P",
    software := "20.4", serial := "S1", mac_addr := "aa:bb", role := "master",
    location := "" }

/-- Witness for C8. -/
theorem c8_unresolved_role_isolated_witness :
    ∃ st', process_virtual_chassis (startState c8store false) "accs-x-1-1" [c8member] = some st' ∧
      st'.stats.errors = (startState c8store false).stats.errors ++
        [s!"Cannot proceed without DeviceRole for accs-x-1-1"] ∧
      st'.stats.devices_skipped = (startState c8store false).stats.devices_skipped + [c8member].length ∧
      st'.store.devices = (startState c8store false).store.devices ∧
      st'.store.vcs = (startState c8store false).store.vcs ∧
      st'.stats.devices_created = (startState c8store false).stats.devices_created ∧
      st'.stats.virtual_chassis_created = (startState c8store false).stats.virtual_chassis_created ∧
      (∀ rest, processGroups (startState c8store false) (("accs-x-1-1", [c8member]) :: rest) =
        processGroups st' rest) :=
  c8_unresolved_role_isolated (startState c8store false) "accs-x-1-1" [c8member]
    "Juniper_junos" c8store (by decide) (by decide)

/-! ## Step-level characterization lemmas -/

theorem devNamed_congr (s s' : Store) (h : s'.devices = s.devices) (n : String) :
    devNamed s' n = devNamed s n := by
  unfold devNamed; rw [h]

theorem deviceById_congr (s s' : Store) (h : s'.devices = s.devices) (i : Nat) :
    deviceById s' i = deviceById s i := by
  unfold deviceById; rw [h]

theorem vcByMasterName_congr (s s' : Store) (hd : s'.devices = s.devices)
    (hv : s'.vcs = s.vcs) (n : String) :
    vcByMasterName s' n = vcByMasterName s n := by
  unfold vcByMasterName
  rw [hv]
  congr 1
  funext vc
  cases vc.master with
  | none => rfl
  | some i => dsimp only; rw [deviceById_congr s s' hd]

theorem attachedCount_congr (s s' : Store) (h : s'.devices = s.devices) (i : Nat) :
    attachedCount s' i = attachedCount s i := by
  unfold attachedCount; rw [h]

theorem createMemberIn_frame (st : JobState) (vc : VCE) (nm : String) (m : Member)
    (device_role platform : String) (site region : Option String) :
    (createMemberIn st vc nm m device_role platform site region).stats.serial_mismatches
        = st.stats.serial_mismatches ∧
    (createMemberIn st vc nm m device_role platform site region).stats.vc_mismatches
        = st.stats.vc_mismatches ∧
    (createMemberIn st vc nm m device_role platform site region).stats.warnings
        = st.stats.warnings ∧
    (createMemberIn st vc nm m device_role platform site region).stats.errors
        = st.stats.errors ∧
    (createMemberIn st vc nm m device_role platform site region).stats.devices_updated
        = st.stats.devices_updated ∧
    (createMemberIn st vc nm m device_role platform site region).stats.virtual_chassis_created
        = st.stats.virtual_chassis_created ∧
    (createMemberIn st vc nm m device_role platform site region).stats.virtual_chassis_updated
        = st.stats.virtual_chassis_updated ∧
    (createMemberIn st vc nm m device_role platform site region).store.vcs = st.store.vcs ∧
    ((createMemberIn st vc nm m device_role platform site region).store.devices
        = st.store.devices ∨
      ∃ d : DeviceE,
        (createMemberIn st vc nm m device_role platform site region).store.devices
            = st.store.devices ++ [d] ∧
        d.name = nm ∧ d.virtual_chassis = some vc.vcId ∧
        d.vc_position = some m.member_id) := by
  unfold createMemberIn
  split
  next st2 heq =>
    have hf := godt_frame st m.model
    rw [heq] at hf
    simp only at hf
    obtain ⟨h1, h2, _, _, _, _, _, hupd, _, hvcc, hvcu, h3, h4, h5, h6, _⟩ := hf
    exact ⟨h5, h6, h4, h3, hupd, hvcc, hvcu, h2, Or.inl h1⟩
  next dt st2 heq =>
    have hf := godt_frame st m.model
    rw [heq] at hf
    simp only at hf
    obtain ⟨h1, h2, _, _, _, _, _, hupd, _, hvcc, hvcu, h3, h4, h5, h6, _⟩ := hf
    dsimp only
    exact ⟨h5, h6, h4, h3, hupd, hvcc, hvcu, h2, Or.inr ⟨_, by rw [h1], rfl, rfl, rfl⟩⟩

theorem verifyStep_frame (vc : VCE) (dr pf : String) (site region : Option String)
    (st : JobState) (m : Member) :
    (verifyStep vc dr pf site region st m).stats.vc_mismatches = st.stats.vc_mismatches ∧
    (verifyStep vc dr pf site region st m).stats.warnings = st.stats.warnings ∧
    (verifyStep vc dr pf site region st m).stats.errors = st.stats.errors ∧
    (verifyStep vc dr pf site region st m).stats.devices_updated = st.stats.devices_updated ∧
    (verifyStep vc dr pf site region st m).stats.virtual_chassis_created
        = st.stats.virtual_chassis_created ∧
    (verifyStep vc dr pf site region st m).stats.virtual_chassis_updated
        = st.stats.virtual_chassis_updated ∧
    (verifyStep vc dr pf site region st m).store.vcs = st.store.vcs ∧
    (∃ ext, (verifyStep vc dr pf site region st m).store.devices
        = st.store.devices ++ ext) := by
  simp only [verifyStep]
  split
  next hd =>
    obtain ⟨c1, c2, c3, c4, c5, c6, c7, c8, c9⟩ :=
      createMemberIn_frame
        (logWarn st (member_not_found_msg (vc.name ++ "-" ++ toString m.member_id)))
        vc (vc.name ++ "-" ++ toString m.member_id) m dr pf site region
    refine ⟨by simpa [logWarn] using c2, by simpa [logWarn] using c3,
            by simpa [logWarn] using c4, by simpa [logWarn] using c5,
            by simpa [logWarn] using c6, by simpa [logWarn] using c7,
            by simpa [logWarn] using c8, ?_⟩
    rcases c9 with h | ⟨d, h, _⟩
    · exact ⟨[], by rw [h]; simp [logWarn]⟩
    · exact ⟨[d], by rw [h]; simp [logWarn]⟩
  next d hd =>
    split <;> split <;> simp [logWarn]

theorem verifyStep_devNamed_mono (vc : VCE) (dr pf : String)
    (site region : Option String) (st : JobState) (m : Member) (n : String)
    (x : DeviceE) (h : devNamed st.store n = some x) :
    devNamed (verifyStep vc dr pf site region st m).store n = some x := by
  obtain ⟨_, _, _, _, _, _, _, ext, hdev⟩ := verifyStep_frame vc dr pf site region st m
  unfold devNamed at h ⊢
  rw [hdev]
  exact find?_append_left_some _ _ _ _ h

theorem verify_fold_frame (vc : VCE) (dr pf : String) (site region : Option String)
    (members : List Member) (st : JobState) :
    (members.foldl (verifyStep vc dr pf site region) st).stats.vc_mismatches
        = st.stats.vc_mismatches ∧
    (members.foldl (verifyStep vc dr pf site region) st).stats.warnings
        = st.stats.warnings ∧
    (members.foldl (verifyStep vc dr pf site region) st).stats.errors
        = st.stats.errors ∧
    (members.foldl (verifyStep vc dr pf site region) st).stats.devices_updated
        = st.stats.devices_updated ∧
    (members.foldl (verifyStep vc dr pf site region) st).stats.virtual_chassis_created
        = st.stats.virtual_chassis_created ∧
    (members.foldl (verifyStep vc dr pf site region) st).store.vcs = st.store.vcs ∧
    (∃ ext, (members.foldl (verifyStep vc dr pf site region) st).store.devices
        = st.store.devices ++ ext) ∧
    (∀ n x, devNamed st.store n = some x →
      devNamed (members.foldl (verifyStep vc dr pf site region) st).store n = some x) := by
  refine ⟨?_, ?_, ?_, ?_, ?_, ?_, ?_, ?_⟩
  · exact foldl_proj_eq _ (fun s => s.stats.vc_mismatches)
      (fun s a => (verifyStep_frame vc dr pf site region s a).1) members st
  · exact foldl_proj_eq _ (fun s => s.stats.warnings)
      (fun s a => (verifyStep_frame vc dr pf site region s a).2.1) members st
  · exact foldl_proj_eq _ (fun s => s.stats.errors)
      (fun s a => (verifyStep_frame vc dr pf site region s a).2.2.1) members st
  · exact foldl_proj_eq _ (fun s => s.stats.devices_updated)
      (fun s a => (verifyStep_frame vc dr pf site region s a).2.2.2.1) members st
  · exact foldl_proj_eq _ (fun s => s.stats.virtual_chassis_created)
      (fun s a => (verifyStep_frame vc dr pf site region s a).2.2.2.2.1) members st
  · exact foldl_proj_eq _ (fun s => s.store.vcs)
      (fun s a => (verifyStep_frame vc dr pf site region s a).2.2.2.2.2.2.1) members st
  · exact foldl_rel _ (fun s s' : JobState => ∃ ext, s'.store.devices = s.store.devices ++ ext)
      (fun s => ⟨[], by simp⟩)
      (fun a b c h1 h2 => by
        obtain ⟨e1, he1⟩ := h1
        obtain ⟨e2, he2⟩ := h2
        exact ⟨e1 ++ e2, by rw [he2, he1, List.append_assoc]⟩)
      (fun s a => (verifyStep_frame vc dr pf site region s a).2.2.2.2.2.2.2) members st
  · intro n x h
    exact foldl_inv _ (fun s => devNamed s.store n = some x)
      (fun s a hs => verifyStep_devNamed_mono vc dr pf site region s a n x hs) members st h

theorem verify_frame (st : JobState) (vc : VCE) (members : List Member)
    (dr pf : String) (site region : Option String) :
    (verify_and_update_virtual_chassis st vc members dr pf site region).stats.vc_mismatches
        = st.stats.vc_mismatches ++
          (if attachedCount st.store vc.vcId ≠ members.length then
            [{ vc := vc.name, issue := "member_count", expected := members.length,
               actual := attachedCount st.store vc.vcId }]
           else []) ∧
    (∃ ext, (verify_and_update_virtual_chassis st vc members dr pf site region).store.devices
        = st.store.devices ++ ext) ∧
    (verify_and_update_virtual_chassis st vc members dr pf site region).stats.warnings
        = st.stats.warnings ∧
    (verify_and_update_virtual_chassis st vc members dr pf site region).stats.errors
        = st.stats.errors ∧
    (∀ n x, devNamed st.store n = some x →
      devNamed (verify_and_update_virtual_chassis st vc members dr pf site region).store n
        = some x) := by
  simp only [verify_and_update_virtual_chassis]
  by_cases hc : attachedCount st.store vc.vcId ≠ members.length
  · rw [if_pos hc]
    obtain ⟨f1, f2, f3, f4, f5, f6, ⟨ext, f7⟩, f8⟩ :=
      verify_fold_frame vc dr pf site region members
        { logWarn st (s!"Member count mismatch for {vc.name}") with stats :=
           { (logWarn st (s!"Member count mismatch for {vc.name}")).stats with
             vc_mismatches := (logWarn st (s!"Member count mismatch for {vc.name}")).stats.vc_mismatches ++
               [{ vc := vc.name, issue := "member_count", expected := members.length,
                  actual := attachedCount st.store vc.vcId }] } }
    refine ⟨by simpa [logWarn, hc] using f1, ⟨ext, by simpa [logWarn] using f7⟩,
            by simpa [logWarn] using f2, by simpa [logWarn] using f3, ?_⟩
    intro n x h
    have := f8 n x (by simpa [logWarn] using h)
    simpa [logWarn] using this
  · rw [if_neg hc]
    obtain ⟨f1, f2, f3, f4, f5, f6, ⟨ext, f7⟩, f8⟩ :=
      verify_fold_frame vc dr pf site region members st
    have hce : attachedCount st.store vc.vcId = members.length := not_not.mp hc
    refine ⟨by simpa [hce] using f1, ⟨ext, by simpa using f7⟩, by simpa using f2,
            by simpa using f3, ?_⟩
    intro n x h
    simpa using f8 n x h

theorem process_eq_withRole (st : JobState) (dn : String) (members : List Member)
    (p : String) (s' : Store)
    (hrole : st.store.roles.contains (extract_device_role dn) = true)
    (hplat : get_platform_s st.store = some (p, s')) :
    process_virtual_chassis st dn members =
      processWithRole
        { siteWarnState st dn
            (find_site_by_facility_code st.store (parse_facility_code st.store dn)).1
            (parse_facility_code st.store dn) with store := s' }
        dn members (extract_device_role dn) p
        (find_site_by_facility_code st.store (parse_facility_code st.store dn)) := by
  have hstore := (siteWarnState_frame st dn
      (find_site_by_facility_code st.store (parse_facility_code st.store dn)).1
      (parse_facility_code st.store dn)).1
  have hg := gocdr_eq_some
    (siteWarnState st dn
      (find_site_by_facility_code st.store (parse_facility_code st.store dn)).1
      (parse_facility_code st.store dn))
    (extract_device_role dn) (by rw [hstore]; exact hrole)
  simp only [process_virtual_chassis]
  rw [hg]
  dsimp only
  rw [hstore, hplat]

/-! ## C5: member-count drift -/

/-- C5: for a group whose chassis already exists in the store, a stored
attached-member count that differs from the group size yields exactly one
member_count mismatch record with expected = group size and actual =
stored count, and no stored device is deleted or renamed (the device list
is only ever extended on this path). -/
theorem c5_member_count_mismatch (st : JobState) (dn : String)
    (members : List Member) (m0 : Member) (mrest : List Member)
    (p : String) (s' : Store) (vc : VCE)
    (hmem : members = m0 :: mrest)
    (hrole : st.store.roles.contains (extract_device_role dn) = true)
    (hplat : get_platform_s st.store = some (p, s'))
    (hvc : vcByMasterName st.store dn = some vc)
    (hcnt : attachedCount st.store vc.vcId ≠ members.length) :
    ∃ st', process_virtual_chassis st dn members = some st' ∧
      st'.stats.vc_mismatches = st.stats.vc_mismatches ++
        [{ vc := vc.name, issue := "member_count", expected := members.length,
           actual := attachedCount st.store vc.vcId }] ∧
      (∃ ext, st'.store.devices = st.store.devices ++ ext) := by
  obtain ⟨hpd, hpv, _, _, _, _, _⟩ := get_platform_s_shape st.store p s' hplat
  rw [process_eq_withRole st dn members p s' hrole hplat]
  subst hmem
  simp only [processWithRole]
  have h1 : vcByMasterName s' dn = some vc := by
    rw [vcByMasterName_congr st.store s' hpd hpv]; exact hvc
  rw [h1]
  refine ⟨_, rfl, ?_, ?_⟩
  · have hv := (verify_frame
      { siteWarnState st dn
          (find_site_by_facility_code st.store (parse_facility_code st.store dn)).1
          (parse_facility_code st.store dn) with store := s' }
      vc (m0 :: mrest) (extract_device_role dn) p
      ((find_site_by_facility_code st.store (parse_facility_code st.store dn)).1.map
        (fun s => s.name))
      ((find_site_by_facility_code st.store (parse_facility_code st.store dn)).2)).1
    rw [hv]
    have hatt : attachedCount s' vc.vcId = attachedCount st.store vc.vcId :=
      attachedCount_congr st.store s' hpd vc.vcId
    have hvcm := (siteWarnState_frame st dn
        (find_site_by_facility_code st.store (parse_facility_code st.store dn)).1
        (parse_facility_code st.store dn)).2.2.2.2.2.2.1
    simp only [hatt, hvcm]
    rw [if_pos (by simpa [hatt] using hcnt)]
  · have hv := (verify_frame
      { siteWarnState st dn
          (find_site_by_facility_code st.store (parse_facility_code st.store dn)).1
          (parse_facility_code st.store dn) with store := s' }
      vc (m0 :: mrest) (extract_device_role dn) p
      ((find_site_by_facility_code st.store (parse_facility_code st.store dn)).1.map
        (fun s => s.name))
      ((find_site_by_facility_code st.store (parse_facility_code st.store dn)).2)).2.1
    obtain ⟨ext, hext⟩ := hv
    exact ⟨ext, by rw [hext, hpd]⟩

def c5dev : DeviceE :=
  { devId := 0, name := "accs-ho-414-1", device_role := "Access",
    device_type := "EX4300-48P", platform := "Juniper_junos", serial := "S1",
    site := none, region := none, virtual_chassis := some 1,
    vc_position := some 0, vc_priority := some 1, comments := "" }

def c5vc : VCE :=
  { vcId := 1, name := "accs-ho-414-1", master := some 0, domain := "accs-ho-414-1" }

def c5store : Store :=
  { sites := [], devices := [c5dev], vcs := [c5vc],
    deviceTypes := ["EX4300-48P"], roles := ["Access"], manufacturers := ["Juniper"],
    platforms := [{ name := "Juniper_junos", slug := "juniper-junos" }], nextId := 2 }

def c5m (i : Int) (ser : String) : Member :=
  { device_name := "accs-ho-414-1", member_id := i, model := "EX4300-48P",
    software := "20.4", serial := ser, mac_addr := "aa:bb", role := "linecard",
    location := "" }

/-- Witness for C5: a chassis with 1 stored member against an import of 2. -/
theorem c5_member_count_mismatch_witness :
    ∃ st', process_virtual_chassis (startState c5store false) "accs-ho-414-1"
        [c5m 0 "S1", c5m 1 "S2"] = some st' ∧
      st'.stats.vc_mismatches = (startState c5store false).stats.vc_mismatches ++
        [{ vc := c5vc.name, issue := "member_count",
           expected := [c5m 0 "S1", c5m 1 "S2"].length,
           actual := attachedCount (startState c5store false).store c5vc.vcId }] ∧
      (∃ ext, st'.store.devices = (startState c5store false).store.devices ++ ext) :=
  c5_member_count_mismatch (startState c5store false) "accs-ho-414-1"
    [c5m 0 "S1", c5m 1 "S2"] (c5m 0 "S1") [c5m 1 "S2"] "Juniper_junos" c5store c5vc
    (by decide) (by decide) (by decide) (by decide) (by decide)

/-! ## C4: serial drift -/

/-- The serial-mismatch records the verify loop generates for one member,
read against a fixed store. -/
def serialMismAt (vcName : String) (s0 : Store) (m : Member) : List SerialMismatchR :=
  match devNamed s0 (vcName ++ "-" ++ toString m.member_id) with
  | some d =>
    if d.serial ≠ m.serial then
      [{ device := vcName ++ "-" ++ toString m.member_id, member_id := m.member_id,
         expected_serial := m.serial, actual_serial := d.serial }]
    else []
  | none => []

def serialMismsFor (vcName : String) (s0 : Store) : List Member → List SerialMismatchR
  | [] => []
  | m :: rest => serialMismAt vcName s0 m ++ serialMismsFor vcName s0 rest

theorem serialMismsFor_device_mem (vcName : String) (s0 : Store) :
    ∀ (l : List Member) (r : SerialMismatchR), r ∈ serialMismsFor vcName s0 l →
      ∃ m ∈ l, r.device = vcName ++ "-" ++ toString m.member_id := by
  intro l
  induction l with
  | nil => intro r hr; exact absurd hr (List.not_mem_nil r)
  | cons m rest ih =>
    intro r hr
    rw [serialMismsFor] at hr
    rcases List.mem_append.mp hr with h | h
    · unfold serialMismAt at h
      split at h
      · split at h
        · rcases List.mem_singleton.mp h with rfl
          exact ⟨m, List.mem_cons_self m rest, rfl⟩
        · exact absurd h (List.not_mem_nil r)
      · exact absurd h (List.not_mem_nil r)
    · obtain ⟨m', hm', he⟩ := ih r h
      exact ⟨m', List.mem_cons_of_mem _ hm', he⟩

theorem verifyStep_found (vc : VCE) (dr pf : String) (site region : Option String)
    (st : JobState) (m : Member) (d : DeviceE)
    (hd : devNamed st.store (vc.name ++ "-" ++ toString m.member_id) = some d) :
    (verifyStep vc dr pf site region st m).store = st.store ∧
    (verifyStep vc dr pf site region st m).stats.serial_mismatches
      = st.stats.serial_mismatches ++
        (if d.serial ≠ m.serial then
          [{ device := vc.name ++ "-" ++ toString m.member_id, member_id := m.member_id,
             expected_serial := m.serial, actual_serial := d.serial }]
         else []) := by
  simp only [verifyStep, hd]
  by_cases hs : d.serial ≠ m.serial <;>
    by_cases hp : d.vc_position ≠ some m.member_id <;>
      simp [hs, hp, logWarn]

theorem verifyStep_notfound (vc : VCE) (dr pf : String) (site region : Option String)
    (st : JobState) (m : Member)
    (hd : devNamed st.store (vc.name ++ "-" ++ toString m.member_id) = none) :
    ((verifyStep vc dr pf site region st m).store.devices = st.store.devices ∨
      ∃ d, (verifyStep vc dr pf site region st m).store.devices = st.store.devices ++ [d] ∧
        d.name = vc.name ++ "-" ++ toString m.member_id) ∧
    (verifyStep vc dr pf site region st m).stats.serial_mismatches
      = st.stats.serial_mismatches := by
  simp only [verifyStep, hd]
  obtain ⟨c1, _, _, _, _, _, _, _, c9⟩ :=
    createMemberIn_frame
      (logWarn st (member_not_found_msg (vc.name ++ "-" ++ toString m.member_id)))
      vc (vc.name ++ "-" ++ toString m.member_id) m dr pf site region
  constructor
  · rcases c9 with h | ⟨d, h, hn, _⟩
    · exact Or.inl (by rw [h]; simp [logWarn])
    · exact Or.inr ⟨d, by rw [h]; simp [logWarn], hn⟩
  · simpa [logWarn] using c1

theorem verify_fold_serial (vc : VCE) (dr pf : String) (site region : Option String)
    (s0 : Store) :
    ∀ (members : List Member) (st : JobState),
      (∀ m ∈ members, devNamed st.store (vc.name ++ "-" ++ toString m.member_id)
          = devNamed s0 (vc.name ++ "-" ++ toString m.member_id)) →
      (members.map (fun m => vc.name ++ "-" ++ toString m.member_id)).Nodup →
      (members.foldl (verifyStep vc dr pf site region) st).stats.serial_mismatches
        = st.stats.serial_mismatches ++ serialMismsFor vc.name s0 members := by
  intro members
  induction members with
  | nil => intro st _ _; simp [serialMismsFor]
  | cons m rest ih =>
    intro st hstab hnd
    rw [List.foldl_cons, serialMismsFor]
    have hm := hstab m (List.mem_cons_self m rest)
    have hnames : ∀ m' ∈ rest,
        (vc.name ++ "-" ++ toString m'.member_id) ≠ (vc.name ++ "-" ++ toString m.member_id) := by
      intro m' hm' heq
      have h1 : (vc.name ++ "-" ++ toString m.member_id) ∉
          rest.map (fun x => vc.name ++ "-" ++ toString x.member_id) :=
        (List.nodup_cons.mp hnd).1
      exact h1 (heq ▸ List.mem_map_of_mem _ hm')
    cases hd : devNamed st.store (vc.name ++ "-" ++ toString m.member_id) with
    | some d =>
      obtain ⟨hs1, hs2⟩ := verifyStep_found vc dr pf site region st m d hd
      have hstab' : ∀ m' ∈ rest,
          devNamed (verifyStep vc dr pf site region st m).store
              (vc.name ++ "-" ++ toString m'.member_id)
            = devNamed s0 (vc.name ++ "-" ++ toString m'.member_id) := by
        intro m' hm'
        rw [hs1]
        exact hstab m' (List.mem_cons_of_mem _ hm')
      rw [ih _ hstab' (List.nodup_cons.mp hnd).2, hs2]
      unfold serialMismAt
      rw [← hm, hd]
      rw [List.append_assoc]
    | none =>
      obtain ⟨hdev, hs2⟩ := verifyStep_notfound vc dr pf site region st m hd
      have hstab' : ∀ m' ∈ rest,
          devNamed (verifyStep vc dr pf site region st m).store
              (vc.name ++ "-" ++ toString m'.member_id)
            = devNamed s0 (vc.name ++ "-" ++ toString m'.member_id) := by
        intro m' hm'
        rcases hdev with h | ⟨d, h, hn⟩
        · unfold devNamed
          rw [h]
          exact hstab m' (List.mem_cons_of_mem _ hm')
        · unfold devNamed
          rw [h]
          rw [find?_append_right_none]
          · exact hstab m' (List.mem_cons_of_mem _ hm')
          · simp only [List.find?_singleton]
            rw [if_neg]
            simp only [beq_iff_eq]
            rw [hn]
            exact fun hh => hnames m' hm' hh.symm
      rw [ih _ hstab' (List.nodup_cons.mp hnd).2, hs2]
      unfold serialMismAt
      rw [← hm, hd]
      simp

theorem serialMismsFor_congr (vcName : String) (s s' : Store)
    (h : s'.devices = s.devices) :
    ∀ l : List Member, serialMismsFor vcName s' l = serialMismsFor vcName s l := by
  intro l
  induction l with
  | nil => rfl
  | cons m rest ih =>
    rw [serialMismsFor, serialMismsFor, ih]
    unfold serialMismAt
    rw [devNamed_congr s s' h]

theorem serialMismsFor_filter (vcName : String) (s0 : Store) :
    ∀ (members : List Member) (m : Member) (d : DeviceE),
      (members.map (fun x => vcName ++ "-" ++ toString x.member_id)).Nodup →
      m ∈ members →
      devNamed s0 (vcName ++ "-" ++ toString m.member_id) = some d →
      d.serial ≠ m.serial →
      (serialMismsFor vcName s0 members).filter
          (fun r => r.device == vcName ++ "-" ++ toString m.member_id)
        = [{ device := vcName ++ "-" ++ toString m.member_id, member_id := m.member_id,
             expected_serial := m.serial, actual_serial := d.serial }] := by
  intro members
  induction members with
  | nil => intro m d _ hm _ _; exact absurd hm (List.not_mem_nil m)
  | cons m' rest ih =>
    intro m d hnd hm hdev hser
    rw [serialMismsFor, List.filter_append]
    rcases List.mem_cons.mp hm with rfl | hmr
    · have hhead : serialMismAt vcName s0 m =
          [{ device := vcName ++ "-" ++ toString m.member_id, member_id := m.member_id,
             expected_serial := m.serial, actual_serial := d.serial }] := by
        unfold serialMismAt
        rw [hdev]
        dsimp only
        rw [if_pos hser]
      rw [hhead]
      have hnotin : (vcName ++ "-" ++ toString m.member_id) ∉
          rest.map (fun x => vcName ++ "-" ++ toString x.member_id) :=
        (List.nodup_cons.mp hnd).1
      have htail : (serialMismsFor vcName s0 rest).filter
          (fun r => r.device == vcName ++ "-" ++ toString m.member_id) = [] := by
        rw [List.filter_eq_nil_iff]
        intro r hr
        obtain ⟨mx, hmx, he⟩ := serialMismsFor_device_mem vcName s0 rest r hr
        simp only [beq_iff_eq, he]
        intro hcontr
        refine hnotin ?_
        rw [← hcontr]
        exact List.mem_map_of_mem _ hmx
      rw [htail]
      simp
    · have hmm : (vcName ++ "-" ++ toString m.member_id) ∈
          rest.map (fun x => vcName ++ "-" ++ toString x.member_id) :=
        List.mem_map_of_mem _ hmr
      have hne : (vcName ++ "-" ++ toString m'.member_id)
          ≠ (vcName ++ "-" ++ toString m.member_id) := by
        intro hcontr
        refine (List.nodup_cons.mp hnd).1 ?_
        show (vcName ++ "-" ++ toString m'.member_id) ∈ _
        rw [hcontr]
        exact hmm
      have hhead : (serialMismAt vcName s0 m').filter
          (fun r => r.device == vcName ++ "-" ++ toString m.member_id) = [] := by
        rw [List.filter_eq_nil_iff]
        intro r hr
        have hdev' : r.device = vcName ++ "-" ++ toString m'.member_id := by
          unfold serialMismAt at hr
          split at hr
          · split at hr
            · rcases List.mem_singleton.mp hr with rfl; rfl
            · exact absurd hr (List.not_mem_nil r)
          · exact absurd hr (List.not_mem_nil r)
        simp only [beq_iff_eq, hdev']
        exact hne
      rw [hhead]
      simp only [List.nil_append]
      exact ih m d (List.nodup_cons.mp hnd).2 hmr hdev hser

theorem verify_serial (st : JobState) (vc : VCE) (members : List Member)
    (dr pf : String) (site region : Option String)
    (hnd : (members.map (fun x => vc.name ++ "-" ++ toString x.member_id)).Nodup) :
    (verify_and_update_virtual_chassis st vc members dr pf site region).stats.serial_mismatches
      = st.stats.serial_mismatches ++ serialMismsFor vc.name st.store members := by
  simp only [verify_and_update_virtual_chassis]
  by_cases hc : attachedCount st.store vc.vcId ≠ members.length
  · rw [if_pos hc]
    rw [verify_fold_serial vc dr pf site region st.store members
        { logWarn st (s!"Member count mismatch for {vc.name}") with stats :=
           { (logWarn st (s!"Member count mismatch for {vc.name}")).stats with
             vc_mismatches := (logWarn st (s!"Member count mismatch for {vc.name}")).stats.vc_mismatches ++
               [{ vc := vc.name, issue := "member_count", expected := members.length,
                  actual := attachedCount st.store vc.vcId }] } }
        (fun m _ => rfl) hnd]
    simp [logWarn]
  · rw [if_neg hc]
    rw [verify_fold_serial vc dr pf site region st.store members st (fun m _ => rfl) hnd]

/-- Well-formed object identities: every device id is below the store
counter and ids are pairwise distinct. -/
def Store.wfIds (s : Store) : Prop :=
  (∀ d ∈ s.devices, d.devId < s.nextId) ∧
  (s.devices.map (fun d => d.devId)).Nodup

theorem wfIds_congr (s s' : Store) (hd : s'.devices = s.devices)
    (hn : s'.nextId = s.nextId) (h : Store.wfIds s) : Store.wfIds s' := by
  refine ⟨fun d hdm => ?_, ?_⟩
  · rw [hn]; exact h.1 d (hd ▸ hdm)
  · rw [hd]; exact h.2

theorem wfIds_relax (s s' : Store) (hd : s'.devices = s.devices)
    (hn : s.nextId ≤ s'.nextId) (h : Store.wfIds s) : Store.wfIds s' := by
  refine ⟨fun d hdm => ?_, ?_⟩
  · exact lt_of_lt_of_le (h.1 d (hd ▸ hdm)) hn
  · rw [hd]; exact h.2

theorem wfIds_extend (s s' : Store) (d : DeviceE)
    (hd : s'.devices = s.devices ++ [d]) (hid : d.devId = s.nextId)
    (hn : s'.nextId = s.nextId + 1) (h : Store.wfIds s) : Store.wfIds s' := by
  refine ⟨fun e he => ?_, ?_⟩
  · rw [hd] at he
    rw [hn]
    rcases List.mem_append.mp he with h1 | h1
    · exact Nat.lt_succ_of_lt (h.1 e h1)
    · rcases List.mem_singleton.mp h1 with rfl
      rw [hid]
      exact Nat.lt_succ_self _
  · rw [hd, List.map_append]
    rw [List.nodup_append]
    refine ⟨h.2, List.nodup_singleton _, ?_⟩
    intro a ha hb
    simp only [List.map_cons, List.map_nil, List.mem_singleton] at hb
    subst hb
    obtain ⟨e, he, hee⟩ := List.mem_map.mp ha
    have hee2 : e.devId = d.devId := hee
    have hlt := h.1 e he
    rw [hee2, hid] at hlt
    exact absurd hlt (lt_irrefl _)

theorem find?_name_map_save :
    ∀ (l : List DeviceE) (d : DeviceE) (n : String) (x : DeviceE),
      (d.name == n) = false →
      l.find? (fun e => e.name == n) = some x →
      (x.devId == d.devId) = false →
      (l.map (fun e => if e.devId == d.devId then d else e)).find?
          (fun e => e.name == n) = some x := by
  intro l
  induction l with
  | nil => intro d n x _ h _; exact absurd h (by simp)
  | cons e t ih =>
    intro d n x hdn hfind hne
    by_cases pe : ((fun e : DeviceE => e.name == n) e) = true
    · rw [@List.find?_cons_of_pos _ (fun e : DeviceE => e.name == n) e t pe] at hfind
      have hex : e = x := Option.some.inj hfind
      subst hex
      rw [List.map_cons]
      have hrep : (if e.devId == d.devId then d else e) = e := by
        rw [if_neg]
        rw [hne]
        exact Bool.false_ne_true
      rw [hrep]
      exact @List.find?_cons_of_pos _ (fun e : DeviceE => e.name == n) e _ pe
    · rw [@List.find?_cons_of_neg _ (fun e : DeviceE => e.name == n) e t pe] at hfind
      rw [List.map_cons]
      by_cases hr : (e.devId == d.devId) = true
      · rw [if_pos hr]
        rw [@List.find?_cons_of_neg _ (fun e : DeviceE => e.name == n) d _ (by simp [hdn])]
        exact ih d n x hdn hfind hne
      · rw [if_neg hr]
        rw [@List.find?_cons_of_neg _ (fun e : DeviceE => e.name == n) e _ pe]
        exact ih d n x hdn hfind hne

theorem saveDevice_ids (s : Store) (d : DeviceE) :
    (saveDevice s d).devices.map (fun e => e.devId)
      = s.devices.map (fun e => e.devId) := by
  unfold saveDevice
  rw [List.map_map]
  apply List.map_congr_left
  intro e _
  by_cases h : (e.devId == d.devId) = true
  · simp only [Function.comp_apply, if_pos h]
    exact (beq_iff_eq.mp h).symm
  · simp only [Function.comp_apply, if_neg h]

theorem saveDevice_wfIds (s : Store) (d : DeviceE) (hd : d.devId < s.nextId)
    (h : Store.wfIds s) : Store.wfIds (saveDevice s d) := by
  refine ⟨fun e he => ?_, ?_⟩
  · unfold saveDevice at he
    simp only [List.mem_map] at he
    obtain ⟨e0, he0, hee⟩ := he
    by_cases hc : (e0.devId == d.devId) = true
    · rw [if_pos hc] at hee
      subst hee
      exact hd
    · rw [if_neg hc] at hee
      subst hee
      exact h.1 e0 he0
  · rw [saveDevice_ids]
    exact h.2

theorem createMemberIn_devices (st : JobState) (vc : VCE) (nm : String) (m : Member)
    (device_role platform : String) (site region : Option String) :
    ((createMemberIn st vc nm m device_role platform site region).store.devices
        = st.store.devices ∧
     (createMemberIn st vc nm m device_role platform site region).store.nextId
        = st.store.nextId) ∨
    (∃ d : DeviceE,
      (createMemberIn st vc nm m device_role platform site region).store.devices
          = st.store.devices ++ [d] ∧
      d.devId = st.store.nextId ∧ d.name = nm ∧
      d.virtual_chassis = some vc.vcId ∧ d.vc_position = some m.member_id ∧
      d.vc_priority = vcPriorityFor m.role ∧ d.serial = m.serial ∧
      (createMemberIn st vc nm m device_role platform site region).store.nextId
          = st.store.nextId + 1) := by
  unfold createMemberIn
  split
  next st2 heq =>
    have hf := godt_frame st m.model
    rw [heq] at hf
    simp only at hf
    exact Or.inl ⟨hf.1, hf.2.2.1⟩
  next dt st2 heq =>
    have hf := godt_frame st m.model
    rw [heq] at hf
    simp only at hf
    dsimp only
    apply Or.inr
    refine ⟨_, by rw [hf.1], by rw [hf.2.2.1], rfl, rfl, rfl, rfl, rfl, by rw [hf.2.2.1]⟩

theorem cvcStep_frame (vc : VCE) (dr pf : String) (site region : Option String)
    (st : JobState) (m : Member) :
    (cvcStep vc dr pf site region st m).stats.serial_mismatches
        = st.stats.serial_mismatches ∧
    (cvcStep vc dr pf site region st m).stats.warnings = st.stats.warnings ∧
    (cvcStep vc dr pf site region st m).stats.errors = st.stats.errors ∧
    (cvcStep vc dr pf site region st m).stats.vc_mismatches = st.stats.vc_mismatches ∧
    (cvcStep vc dr pf site region st m).stats.devices_updated = st.stats.devices_updated ∧
    (cvcStep vc dr pf site region st m).stats.virtual_chassis_created
        = st.stats.virtual_chassis_created ∧
    (cvcStep vc dr pf site region st m).stats.virtual_chassis_updated
        = st.stats.virtual_chassis_updated ∧
    (cvcStep vc dr pf site region st m).store.vcs = st.store.vcs := by
  simp only [cvcStep]
  split
  · exact ⟨rfl, rfl, rfl, rfl, rfl, rfl, rfl, rfl⟩
  · obtain ⟨c1, c2, c3, c4, c5, c6, c7, c8, _⟩ :=
      createMemberIn_frame st vc (vc.name ++ "-" ++ toString m.member_id) m dr pf site region
    exact ⟨c1, c3, c4, c2, c5, c6, c7, c8⟩

theorem cvcStep_pres_bare (vc : VCE) (dr pf : String) (site region : Option String)
    (ed : DeviceE) (st : JobState) (m : Member)
    (h : Store.wfIds st.store ∧ devNamed st.store vc.name = some ed) :
    Store.wfIds (cvcStep vc dr pf site region st m).store ∧
    devNamed (cvcStep vc dr pf site region st m).store vc.name = some ed := by
  obtain ⟨hwf, hfound⟩ := h
  simp only [cvcStep]
  split
  next member_device hdev =>
    have hmem : member_device ∈ st.store.devices := List.mem_of_find?_eq_some hdev
    have hname : member_device.name = vc.name ++ "-" ++ toString m.member_id := by
      have := List.find?_some hdev
      exact beq_iff_eq.mp this
    constructor
    · exact saveDevice_wfIds st.store _ (hwf.1 member_device hmem) hwf
    · unfold devNamed saveDevice
      apply find?_name_map_save
      · rw [beq_eq_false_iff_ne]
        show member_device.name ≠ vc.name
        rw [hname]
        exact append_dash_ne _ _
      · exact hfound
      · rw [beq_eq_false_iff_ne]
        intro hid
        have hedmem : ed ∈ st.store.devices := List.mem_of_find?_eq_some hfound
        have hedname : ed.name = vc.name :=
          beq_iff_eq.mp (@List.find?_some _ (fun d : DeviceE => d.name == vc.name) ed _ hfound)
        have heq : ed = member_device :=
          List.inj_on_of_nodup_map hwf.2 hedmem hmem hid
        rw [heq, hname] at hedname
        exact append_dash_ne _ _ hedname
  next hdev =>
    rcases createMemberIn_devices st vc (vc.name ++ "-" ++ toString m.member_id) m
        dr pf site region with ⟨h1, h2⟩ | ⟨d, h1, h2, h3, _, _, _, _, h4⟩
    · refine ⟨wfIds_congr st.store _ h1 h2 hwf, ?_⟩
      unfold devNamed
      rw [h1]
      exact hfound
    · refine ⟨wfIds_extend st.store _ d h1 h2 h4 hwf, ?_⟩
      unfold devNamed
      rw [h1]
      exact find?_append_left_some _ _ _ _ hfound

theorem bareSerialCheck_char (st : JobState) (dn : String) (mm : Member)
    (ed : DeviceE) (h : ed.serial ≠ mm.serial) :
    (bareSerialCheck st dn mm ed).stats.serial_mismatches
      = st.stats.serial_mismatches ++
        [{ device := dn, member_id := mm.member_id,
           expected_serial := mm.serial, actual_serial := ed.serial }] ∧
    (bareSerialCheck st dn mm ed).store = st.store ∧
    (bareSerialCheck st dn mm ed).stats.devices_updated = st.stats.devices_updated := by
  unfold bareSerialCheck
  rw [if_pos h]
  exact ⟨by simp [logWarn], by simp [logWarn], by simp [logWarn]⟩

theorem cvc_preserves_bare (st : JobState) (vc_name : String) (master : DeviceE)
    (members : List Member) (site region : Option String) (ed : DeviceE)
    (hwf : Store.wfIds st.store) (hfound : devNamed st.store vc_name = some ed) :
    (create_virtual_chassis st vc_name master members site region).2.stats.serial_mismatches
      = st.stats.serial_mismatches ∧
    devNamed (create_virtual_chassis st vc_name master members site region).2.store vc_name
      = some ed := by
  simp only [create_virtual_chassis]
  have hwf1 : Store.wfIds (cvcInit st (cvcNewVC st vc_name master)).store :=
    wfIds_relax st.store _ rfl (Nat.le_succ _) hwf
  have hfound1 : devNamed (cvcInit st (cvcNewVC st vc_name master)).store vc_name
      = some ed := hfound
  have hinv := foldl_inv
    (cvcStep (cvcNewVC st vc_name master) master.device_role master.platform site region)
    (fun s => Store.wfIds s.store ∧ devNamed s.store vc_name = some ed)
    (fun s a hs => cvcStep_pres_bare _ _ _ site region ed s a hs)
    members (cvcInit st (cvcNewVC st vc_name master)) ⟨hwf1, hfound1⟩
  have hser := foldl_proj_eq
    (cvcStep (cvcNewVC st vc_name master) master.device_role master.platform site region)
    (fun s => s.stats.serial_mismatches)
    (fun s a => (cvcStep_frame _ _ _ site region s a).1)
    members (cvcInit st (cvcNewVC st vc_name master))
  cases members with
  | nil =>
    exact ⟨hser, hfound1⟩
  | cons m0 mrest =>
    dsimp only
    cases hget : devGetUnique
        (List.foldl
          (cvcStep (cvcNewVC st vc_name master) master.device_role master.platform site region)
          (cvcInit st (cvcNewVC st vc_name master)) (m0 :: mrest)).store
        (vc_name ++ "-" ++ toString m0.member_id) with
    | none =>
      dsimp only
      exact ⟨hser, hinv.2⟩
    | some actual_master =>
      dsimp only
      split
      · exact ⟨hser, hinv.2⟩
      · exact ⟨hser, (devNamed_congr _ _ rfl vc_name).trans hinv.2⟩

theorem c4_verify_part (st : JobState) (dn : String) (members : List Member)
    (m0 : Member) (mrest : List Member) (p : String) (s' : Store) (vc : VCE)
    (m : Member) (d : DeviceE)
    (hmem : members = m0 :: mrest)
    (hrole : st.store.roles.contains (extract_device_role dn) = true)
    (hplat : get_platform_s st.store = some (p, s'))
    (hvc : vcByMasterName st.store dn = some vc)
    (hnd : (members.map (fun x => vc.name ++ "-" ++ toString x.member_id)).Nodup)
    (hm : m ∈ members)
    (hfound : devNamed st.store (vc.name ++ "-" ++ toString m.member_id) = some d)
    (hser : d.serial ≠ m.serial) :
    ∃ st', process_virtual_chassis st dn members = some st' ∧
      st'.stats.serial_mismatches.filter
          (fun r => r.device == vc.name ++ "-" ++ toString m.member_id)
        = st.stats.serial_mismatches.filter
            (fun r => r.device == vc.name ++ "-" ++ toString m.member_id)
          ++ [{ device := vc.name ++ "-" ++ toString m.member_id, member_id := m.member_id,
                expected_serial := m.serial, actual_serial := d.serial }] ∧
      devNamed st'.store (vc.name ++ "-" ++ toString m.member_id) = some d := by
  obtain ⟨hpd, hpv, _, _, _, _, _⟩ := get_platform_s_shape st.store p s' hplat
  rw [process_eq_withRole st dn members p s' hrole hplat]
  subst hmem
  simp only [processWithRole]
  have h1 : vcByMasterName s' dn = some vc := by
    rw [vcByMasterName_congr st.store s' hpd hpv]; exact hvc
  rw [h1]
  refine ⟨_, rfl, ?_, ?_⟩
  · have hs := verify_serial
      { siteWarnState st dn
          (find_site_by_facility_code st.store (parse_facility_code st.store dn)).1
          (parse_facility_code st.store dn) with store := s' }
      vc (m0 :: mrest) (extract_device_role dn) p
      ((find_site_by_facility_code st.store (parse_facility_code st.store dn)).1.map
        (fun s => s.name))
      ((find_site_by_facility_code st.store (parse_facility_code st.store dn)).2) hnd
    rw [hs]
    have hsw := (siteWarnState_frame st dn
        (find_site_by_facility_code st.store (parse_facility_code st.store dn)).1
        (parse_facility_code st.store dn)).2.2.2.2.2.1
    have hcongr : serialMismsFor vc.name s' (m0 :: mrest)
        = serialMismsFor vc.name st.store (m0 :: mrest) :=
      serialMismsFor_congr vc.name st.store s' hpd (m0 :: mrest)
    rw [List.filter_append]
    have hfil := serialMismsFor_filter vc.name st.store (m0 :: mrest) m d hnd hm hfound hser
    show _ ++ (serialMismsFor vc.name s' (m0 :: mrest)).filter _ = _
    rw [hcongr, hfil, hsw]
  · have hv := (verify_frame
      { siteWarnState st dn
          (find_site_by_facility_code st.store (parse_facility_code st.store dn)).1
          (parse_facility_code st.store dn) with store := s' }
      vc (m0 :: mrest) (extract_device_role dn) p
      ((find_site_by_facility_code st.store (parse_facility_code st.store dn)).1.map
        (fun s => s.name))
      ((find_site_by_facility_code st.store (parse_facility_code st.store dn)).2)).2.2.2.2
    apply hv
    show devNamed s' _ = some d
    rw [devNamed_congr st.store s' hpd]
    exact hfound

theorem c4_bare_part (st : JobState) (dn : String) (members : List Member)
    (m0 : Member) (mrest : List Member) (p : String) (s' : Store) (ed : DeviceE)
    (hmem : members = m0 :: mrest)
    (hrole : st.store.roles.contains (extract_device_role dn) = true)
    (hplat : get_platform_s st.store = some (p, s'))
    (hnovc : vcByMasterName st.store dn = none)
    (hbare : devNamed st.store dn = some ed)
    (hwf : Store.wfIds st.store)
    (hser : ed.serial ≠ ((members.find? (fun m => pyLower m.role == "master")).getD m0).serial) :
    ∃ st', process_virtual_chassis st dn members = some st' ∧
      st'.stats.serial_mismatches = st.stats.serial_mismatches ++
        [{ device := dn,
           member_id := ((members.find? (fun m => pyLower m.role == "master")).getD m0).member_id,
           expected_serial := ((members.find? (fun m => pyLower m.role == "master")).getD m0).serial,
           actual_serial := ed.serial }] ∧
      devNamed st'.store dn = some ed := by
  obtain ⟨hpd, hpv, hpn, _, _, _, _⟩ := get_platform_s_shape st.store p s' hplat
  rw [process_eq_withRole st dn members p s' hrole hplat]
  subst hmem
  simp only [processWithRole]
  have h1 : vcByMasterName s' dn = none := by
    rw [vcByMasterName_congr st.store s' hpd hpv]; exact hnovc
  rw [h1]
  have h2 : devNamed s' dn = some ed := by
    rw [devNamed_congr st.store s' hpd]; exact hbare
  rw [h2]
  dsimp only
  obtain ⟨hb1, hb2, _⟩ := bareSerialCheck_char
    { siteWarnState st dn
        (find_site_by_facility_code st.store (parse_facility_code st.store dn)).1
        (parse_facility_code st.store dn) with store := s' }
    dn (((m0 :: mrest).find? (fun m => pyLower m.role == "master")).getD m0) ed hser
  have hsw := (siteWarnState_frame st dn
      (find_site_by_facility_code st.store (parse_facility_code st.store dn)).1
      (parse_facility_code st.store dn)).2.2.2.2.2.1
  have hwf2 : Store.wfIds (bareSerialCheck
      { siteWarnState st dn
          (find_site_by_facility_code st.store (parse_facility_code st.store dn)).1
          (parse_facility_code st.store dn) with store := s' }
      dn (((m0 :: mrest).find? (fun m => pyLower m.role == "master")).getD m0) ed).store := by
    rw [hb2]
    exact wfIds_congr st.store s' hpd hpn hwf
  have hfound2 : devNamed (bareSerialCheck
      { siteWarnState st dn
          (find_site_by_facility_code st.store (parse_facility_code st.store dn)).1
          (parse_facility_code st.store dn) with store := s' }
      dn (((m0 :: mrest).find? (fun m => pyLower m.role == "master")).getD m0) ed).store dn
      = some ed := by
    rw [hb2]
    exact h2
  by_cases hlen : (m0 :: mrest).length > 1
  · rw [if_pos hlen]
    obtain ⟨hc1, hc2⟩ := cvc_preserves_bare _ dn ed (m0 :: mrest)
      ((find_site_by_facility_code st.store (parse_facility_code st.store dn)).1.map
        (fun s => s.name))
      ((find_site_by_facility_code st.store (parse_facility_code st.store dn)).2)
      ed hwf2 hfound2
    refine ⟨_, rfl, ?_, hc2⟩
    rw [hc1, hb1]
    show (siteWarnState st dn _ _).stats.serial_mismatches ++ _ = _
    rw [hsw]
  · rw [if_neg hlen]
    refine ⟨_, rfl, ?_, ?_⟩
    · show (bareSerialCheck _ dn _ ed).stats.serial_mismatches = _
      rw [hb1]
      show (siteWarnState st dn _ _).stats.serial_mismatches ++ _ = _
      rw [hsw]
    · show devNamed (bareSerialCheck _ dn _ ed).store dn = some ed
      exact hfound2

/-- C4: serial drift is reported, never corrected.  On the verify path
(existing chassis), each member whose stored device carries a different
serial contributes exactly one serial-mismatch record naming that device
with expected = import serial and actual = stored serial, and the stored
record (its serial included) is unchanged after the group is processed.
On the bare-device path (no chassis), the comparison against the master
member appends exactly one record and the bare device record is likewise
unchanged. -/
theorem c4_serial_drift_reported_not_corrected :
    (∀ (st : JobState) (dn : String) (members : List Member) (m0 : Member)
        (mrest : List Member) (p : String) (s' : Store) (vc : VCE) (m : Member)
        (d : DeviceE),
      members = m0 :: mrest →
      st.store.roles.contains (extract_device_role dn) = true →
      get_platform_s st.store = some (p, s') →
      vcByMasterName st.store dn = some vc →
      (members.map (fun x => vc.name ++ "-" ++ toString x.member_id)).Nodup →
      m ∈ members →
      devNamed st.store (vc.name ++ "-" ++ toString m.member_id) = some d →
      d.serial ≠ m.serial →
      ∃ st', process_virtual_chassis st dn members = some st' ∧
        st'.stats.serial_mismatches.filter
            (fun r => r.device == vc.name ++ "-" ++ toString m.member_id)
          = st.stats.serial_mismatches.filter
              (fun r => r.device == vc.name ++ "-" ++ toString m.member_id)
            ++ [{ device := vc.name ++ "-" ++ toString m.member_id,
                  member_id := m.member_id,
                  expected_serial := m.serial, actual_serial := d.serial }] ∧
        devNamed st'.store (vc.name ++ "-" ++ toString m.member_id) = some d)
    ∧
    (∀ (st : JobState) (dn : String) (members : List Member) (m0 : Member)
        (mrest : List Member) (p : String) (s' : Store) (ed : DeviceE),
      members = m0 :: mrest →
      st.store.roles.contains (extract_device_role dn) = true →
      get_platform_s st.store = some (p, s') →
      vcByMasterName st.store dn = none →
      devNamed st.store dn = some ed →
      Store.wfIds st.store →
      ed.serial ≠ ((members.find? (fun m => pyLower m.role == "master")).getD m0).serial →
      ∃ st', process_virtual_chassis st dn members = some st' ∧
        st'.stats.serial_mismatches = st.stats.serial_mismatches ++
          [{ device := dn,
             member_id := ((members.find? (fun m => pyLower m.role == "master")).getD m0).member_id,
             expected_serial := ((members.find? (fun m => pyLower m.role == "master")).getD m0).serial,
             actual_serial := ed.serial }] ∧
        devNamed st'.store dn = some ed) :=
  ⟨fun st dn members m0 mrest p s' vc m d h1 h2 h3 h4 h5 h6 h7 h8 =>
    c4_verify_part st dn members m0 mrest p s' vc m d h1 h2 h3 h4 h5 h6 h7 h8,
   fun st dn members m0 mrest p s' ed h1 h2 h3 h4 h5 h6 h7 =>
    c4_bare_part st dn members m0 mrest p s' ed h1 h2 h3 h4 h5 h6 h7⟩

def c4vc : VCE :=
  { vcId := 1, name := "accs-ho-414-1", master := some 0, domain := "accs-ho-414-1" }

def c4master : DeviceE :=
  { devId := 0, name := "accs-ho-414-1", device_role := "Access",
    device_type := "EX4300-48P", platform := "Juniper_junos", serial := "S1",
    site := none, region := none, virtual_chassis := some 1,
    vc_position := some 0, vc_priority := some 1, comments := "" }

def c4memberDev : DeviceE :=
  { devId := 2, name := "accs-ho-414-1-0", device_role := "Access",
    device_type := "EX4300-48P", platform := "Juniper_junos", serial := "SX",
    site := none, region := none, virtual_chassis := some 1,
    vc_position := some 0, vc_priority := some 1, comments := "" }

def c4store : Store :=
  { sites := [], devices := [c4master, c4memberDev], vcs := [c4vc],
    deviceTypes := ["EX4300-48P"], roles := ["Access"], manufacturers := ["Juniper"],
    platforms := [{ name := "Juniper_junos", slug := "juniper-junos" }], nextId := 3 }

def c4m : Member :=
  { device_name := "accs-ho-414-1", member_id := 0, model := "EX4300-48P",
    software := "20.4", serial := "S1", mac_addr := "aa:bb", role := "master",
    location := "" }

/-- Witness for C4 (verify path). -/
theorem c4_serial_drift_reported_not_corrected_witness :
    ∃ st', process_virtual_chassis (startState c4store false) "accs-ho-414-1" [c4m]
        = some st' ∧
      st'.stats.serial_mismatches.filter
          (fun r => r.device == c4vc.name ++ "-" ++ toString c4m.member_id)
        = (startState c4store false).stats.serial_mismatches.filter
            (fun r => r.device == c4vc.name ++ "-" ++ toString c4m.member_id)
          ++ [{ device := c4vc.name ++ "-" ++ toString c4m.member_id,
                member_id := c4m.member_id,
                expected_serial := c4m.serial, actual_serial := c4memberDev.serial }] ∧
      devNamed st'.store (c4vc.name ++ "-" ++ toString c4m.member_id) = some c4memberDev :=
  c4_serial_drift_reported_not_corrected.1 (startState c4store false) "accs-ho-414-1"
    [c4m] c4m [] "Juniper_junos" c4store c4vc c4m c4memberDev
    (by decide) (by decide) (by decide) (by decide) (by decide) (by decide)
    (by decide) (by decide)

/-! ## C10: position-suffixed naming invariant of the create paths -/

theorem foldl_rel_mem {σ α : Type _} (f : σ → α → σ) (R : σ → σ → Prop)
    (hrefl : ∀ s, R s s) (htrans : ∀ a b c, R a b → R b c → R a c) :
    ∀ (l : List α), (∀ s a, a ∈ l → R s (f s a)) → ∀ s, R s (l.foldl f s) := by
  intro l
  induction l with
  | nil => intro _ s; exact hrefl s
  | cons a t ih =>
    intro hstep s
    exact htrans _ _ _ (hstep s a (List.mem_cons_self a t))
      (ih (fun s b hb => hstep s b (List.mem_cons_of_mem _ hb)) (f s a))

theorem cvcStep_names (vc : VCE) (dr pf : String) (site region : Option String)
    (st : JobState) (m : Member) :
    ∀ d' ∈ (cvcStep vc dr pf site region st m).store.devices,
      (∃ d ∈ st.store.devices, d.devId = d'.devId ∧ d.name = d'.name) ∨
      d'.name = vc.name ++ "-" ++ toString m.member_id := by
  intro d' hd'
  revert hd'
  simp only [cvcStep]
  split
  next member_device hdev =>
    intro hd'
    unfold saveDevice at hd'
    simp only [List.mem_map] at hd'
    obtain ⟨e, he, hee⟩ := hd'
    by_cases hc : (e.devId == member_device.devId) = true
    · rw [if_pos hc] at hee
      have hmem : member_device ∈ st.store.devices := List.mem_of_find?_eq_some hdev
      refine Or.inl ⟨member_device, hmem, ?_, ?_⟩ <;> rw [← hee]
    · rw [if_neg hc] at hee
      subst hee
      exact Or.inl ⟨e, he, rfl, rfl⟩
  next hdev =>
    intro hd'
    rcases createMemberIn_devices st vc (vc.name ++ "-" ++ toString m.member_id) m
        dr pf site region with ⟨h1, _⟩ | ⟨d, h1, _, h3, _⟩
    · rw [h1] at hd'
      exact Or.inl ⟨d', hd', rfl, rfl⟩
    · rw [h1] at hd'
      rcases List.mem_append.mp hd' with h | h
      · exact Or.inl ⟨d', h, rfl, rfl⟩
      · rcases List.mem_singleton.mp h with rfl
        exact Or.inr h3

/-- C10: every device the create paths produce is named with the position
suffix group-id, never the bare group identifier, while the existence
checks of `process_virtual_chassis` query the bare identifier — so they
can never observe an entity those paths created. -/
theorem c10_position_suffix_naming :
    (∀ (st : JobState) (dn : String) (m : Member) (dr pf : String)
        (site region : Option String),
      ((create_device st dn m dr pf site region).1 = none ∧
        (create_device st dn m dr pf site region).2.store.devices = st.store.devices) ∨
      (∃ d : DeviceE, (create_device st dn m dr pf site region).1 = some d ∧
        (create_device st dn m dr pf site region).2.store.devices
          = st.store.devices ++ [d] ∧
        d.name = dn ++ "-" ++ toString m.member_id ∧ d.name ≠ dn))
    ∧
    (∀ (st : JobState) (vcn : String) (master : DeviceE) (members : List Member)
        (site region : Option String),
      ∀ d' ∈ (create_virtual_chassis st vcn master members site region).2.store.devices,
        (∃ d ∈ st.store.devices, d.devId = d'.devId ∧ d.name = d'.name) ∨
        (∃ m ∈ members, d'.name = vcn ++ "-" ++ toString m.member_id ∧ d'.name ≠ vcn))
    ∧
    (∀ (s : Store) (n : String), (∀ d ∈ s.devices, d.name ≠ n) →
      devNamed s n = none ∧ vcByMasterName s n = none) := by
  refine ⟨?_, ?_, ?_⟩
  · intro st dn m dr pf site region
    unfold create_device
    split
    next st2 heq =>
      have hf := godt_frame st m.model
      rw [heq] at hf
      simp only at hf
      exact Or.inl ⟨rfl, hf.1⟩
    next dt st2 heq =>
      have hf := godt_frame st m.model
      rw [heq] at hf
      simp only at hf
      dsimp only
      apply Or.inr
      refine ⟨_, rfl, by rw [hf.1], rfl, append_dash_ne _ _⟩
  · intro st vcn master members site region
    have hloop := foldl_rel_mem
      (cvcStep (cvcNewVC st vcn master) master.device_role master.platform site region)
      (fun a b : JobState => ∀ d' ∈ b.store.devices,
        (∃ d ∈ a.store.devices, d.devId = d'.devId ∧ d.name = d'.name) ∨
        (∃ m ∈ members, d'.name = vcn ++ "-" ++ toString m.member_id))
      (fun s d' hd' => Or.inl ⟨d', hd', rfl, rfl⟩)
      (fun a b c hab hbc d' hd' => by
        rcases hbc d' hd' with ⟨d, hdb, h1, h2⟩ | h
        · rcases hab d hdb with ⟨e, hea, h3, h4⟩ | ⟨m, hm, h5⟩
          · exact Or.inl ⟨e, hea, h3.trans h1, h4.trans h2⟩
          · exact Or.inr ⟨m, hm, h2 ▸ h5⟩
        · exact Or.inr h)
      members
      (fun s m hm d' hd' => by
        rcases cvcStep_names (cvcNewVC st vcn master) master.device_role master.platform
            site region s m d' hd' with h | h
        · exact Or.inl h
        · exact Or.inr ⟨m, hm, h⟩)
      (cvcInit st (cvcNewVC st vcn master))
    intro d' hd'
    have hfin : ∀ d' ∈ (create_virtual_chassis st vcn master members site region).2.store.devices,
        d' ∈ (members.foldl
          (cvcStep (cvcNewVC st vcn master) master.device_role master.platform site region)
          (cvcInit st (cvcNewVC st vcn master))).store.devices := by
      intro e he
      revert he
      simp only [create_virtual_chassis]
      cases members with
      | nil => intro he; exact he
      | cons m0 mrest =>
        dsimp only
        cases hget : devGetUnique
            (List.foldl
              (cvcStep (cvcNewVC st vcn master) master.device_role master.platform site region)
              (cvcInit st (cvcNewVC st vcn master)) (m0 :: mrest)).store
            (vcn ++ "-" ++ toString m0.member_id) with
        | none => intro he; exact he
        | some am =>
          dsimp only
          split
          · intro he; exact he
          · intro he; exact he
    have hd2 := hfin d' hd'
    rcases hloop d' hd2 with ⟨d, hdm, h1, h2⟩ | ⟨m, hm, h3⟩
    · exact Or.inl ⟨d, hdm, h1, h2⟩
    · exact Or.inr ⟨m, hm, h3, h3 ▸ append_dash_ne _ _⟩
  · intro s n h
    constructor
    · unfold devNamed
      apply List.find?_eq_none.mpr
      intro d hd
      simp only [beq_iff_eq]
      exact h d hd
    · unfold vcByMasterName
      apply List.find?_eq_none.mpr
      intro vc hvc
      cases hm : vc.master with
      | none => simp
      | some i =>
        cases hdi : deviceById s i with
        | none => simp [hdi]
        | some d =>
          have hdm : d ∈ s.devices := List.mem_of_find?_eq_some hdi
          simp only [hdi, beq_iff_eq]
          exact h d hdm

def c10wdev : DeviceE :=
  { devId := 0, name := "accs-ho-414-1-0", device_role := "Access",
    device_type := "EX4300-48P", platform := "Juniper_junos", serial := "S1",
    site := none, region := none, virtual_chassis := some 1,
    vc_position := some 0, vc_priority := some 1, comments := "" }

def c10wvc : VCE :=
  { vcId := 1, name := "accs-ho-414-1", master := some 0, domain := "accs-ho-414-1" }

def c10wstore : Store :=
  { sites := [], devices := [c10wdev], vcs := [c10wvc],
    deviceTypes := [], roles := [], manufacturers := [], platforms := [], nextId := 2 }

/-- Witness for C10: in a store holding only the suffix-named member that
the create paths produce, both existence checks on the bare identifier
come up empty. -/
theorem c10_position_suffix_naming_witness :
    devNamed c10wstore "accs-ho-414-1" = none ∧
    vcByMasterName c10wstore "accs-ho-414-1" = none :=
  c10_position_suffix_naming.2.2 c10wstore "accs-ho-414-1" (by decide)

/-! ## C6: creation of multi-member groups -/

/-- Number of devices in a list carrying a given name. -/
def cnt (l : List DeviceE) (n : String) : Nat :=
  (l.filter (fun d => d.name == n)).length

theorem filter_map_of_name (f : DeviceE → DeviceE) (n : String) :
    ∀ l : List DeviceE, (∀ x ∈ l, (f x).name = x.name) →
      (l.map f).filter (fun d => d.name == n)
        = (l.filter (fun d => d.name == n)).map f := by
  intro l
  induction l with
  | nil => intro _; rfl
  | cons a t ih =>
    intro h
    rw [List.map_cons]
    by_cases ha : (a.name == n) = true
    · rw [@List.filter_cons_of_pos _ (fun d : DeviceE => d.name == n) a _ ha,
        @List.filter_cons_of_pos _ (fun d : DeviceE => d.name == n) (f a) _
          (by show ((f a).name == n) = true; rw [h a (List.mem_cons_self a t)]; exact ha),
        List.map_cons, ih (fun x hx => h x (List.mem_cons_of_mem _ hx))]
    · rw [@List.filter_cons_of_neg _ (fun d : DeviceE => d.name == n) a _ ha,
        @List.filter_cons_of_neg _ (fun d : DeviceE => d.name == n) (f a) _
          (by show ¬((f a).name == n) = true; rw [h a (List.mem_cons_self a t)]; exact ha),
        ih (fun x hx => h x (List.mem_cons_of_mem _ hx))]

theorem map_of_untouched {α : Type _} (f : α → α) :
    ∀ l : List α, (∀ x ∈ l, f x = x) → l.map f = l := by
  intro l
  induction l with
  | nil => intro _; rfl
  | cons a t ih =>
    intro h
    rw [List.map_cons, h a (List.mem_cons_self a t),
      ih (fun x hx => h x (List.mem_cons_of_mem _ hx))]

theorem find?_base_delta (base delta : List DeviceE) (n : String)
    (hbase : ∀ d ∈ base, d.name ≠ n) :
    (base ++ delta).find? (fun d => d.name == n)
      = delta.find? (fun d => d.name == n) := by
  rw [List.find?_append]
  have : base.find? (fun d => d.name == n) = none := by
    apply List.find?_eq_none.mpr
    intro d hd
    simp only [beq_iff_eq]
    exact hbase d hd
  rw [this]
  rfl

theorem ensureJuniper_frame (s : Store) :
    (ensureJuniper s).devices = s.devices ∧ (ensureJuniper s).nextId = s.nextId ∧
    (ensureJuniper s).vcs = s.vcs ∧ (ensureJuniper s).deviceTypes = s.deviceTypes := by
  unfold ensureJuniper
  split <;> exact ⟨rfl, rfl, rfl, rfl⟩

theorem createMemberIn_creates (st : JobState) (vc : VCE) (nm : String) (m : Member)
    (dr pf : String) (site region : Option String) (d0 : String)
    (hchain : dtLookupChain st.store.deviceTypes m.model = some d0) :
    ∃ d : DeviceE,
      createMemberIn st vc nm m dr pf site region
        = { st with
            store := { ensureJuniper st.store with
                       devices := (ensureJuniper st.store).devices ++ [d],
                       nextId := (ensureJuniper st.store).nextId + 1 },
            stats := { st.stats with devices_created := st.stats.devices_created + 1 } } ∧
      d.devId = st.store.nextId ∧ d.name = nm ∧
      d.virtual_chassis = some vc.vcId ∧ d.vc_position = some m.member_id ∧
      d.serial = m.serial := by
  unfold createMemberIn
  rw [godt_eq_of_chain_some st m.model d0 hchain]
  dsimp only
  obtain ⟨hd, hn, _, ht⟩ := ensureJuniper_frame st.store
  refine ⟨_, rfl, hn, rfl, rfl, rfl, rfl⟩

theorem create_device_creates (st : JobState) (dn : String) (m : Member)
    (dr pf : String) (site region : Option String) (d0 : String)
    (hchain : dtLookupChain st.store.deviceTypes m.model = some d0) :
    ∃ d : DeviceE,
      create_device st dn m dr pf site region
        = (some d,
           { st with
             store := { ensureJuniper st.store with
                        devices := (ensureJuniper st.store).devices ++ [d],
                        nextId := (ensureJuniper st.store).nextId + 1 },
             stats := { st.stats with devices_created := st.stats.devices_created + 1 } }) ∧
      d.devId = st.store.nextId ∧ d.name = dn ++ "-" ++ toString m.member_id ∧
      d.virtual_chassis = none ∧ d.serial = m.serial ∧
      d.device_role = dr ∧ d.platform = pf := by
  unfold create_device
  rw [godt_eq_of_chain_some st m.model d0 hchain]
  dsimp only
  obtain ⟨hd, hn, _, _⟩ := ensureJuniper_frame st.store
  refine ⟨_, rfl, hn, rfl, rfl, rfl, rfl, rfl⟩

theorem filter_singleton_of_le_one (delta : List DeviceE) (nm : String) (x : DeviceE)
    (hfd : delta.find? (fun d => d.name == nm) = some x)
    (hcnt : cnt delta nm ≤ 1) :
    delta.filter (fun d => d.name == nm) = [x] := by
  rw [find?_eq_head?_filter] at hfd
  cases hfl : delta.filter (fun d => d.name == nm) with
  | nil => rw [hfl] at hfd; exact absurd hfd (by simp)
  | cons a t =>
    rw [hfl] at hfd
    have hax : a = x := Option.some.inj hfd
    subst hax
    have hlen : t.length = 0 := by
      have : cnt delta nm = t.length + 1 := by
        unfold cnt
        rw [hfl]
        simp [Nat.add_comm]
      omega
    rw [List.length_eq_zero.mp hlen]

theorem filter_nil_of_find?_none (delta : List DeviceE) (nm : String)
    (hfd : delta.find? (fun d => d.name == nm) = none) :
    delta.filter (fun d => d.name == nm) = [] := by
  rw [find?_eq_head?_filter] at hfd
  cases hfl : delta.filter (fun d => d.name == nm) with
  | nil => rfl
  | cons a t => rw [hfl] at hfd; exact absurd hfd (by simp)

/-- One iteration of the member loop of `create_virtual_chassis`, against a
device table split into an untouched `base` (no device named after the
member) and a working suffix `delta` holding at most one device under the
member name: the member name ends up carried by exactly one device in the
suffix, attached to the chassis at the member position; every other name
keeps its rows; the suffix grows by one exactly when the name was free,
and so does the created counter. -/
theorem cvcStep_char (vc : VCE) (dr pf : String) (site region : Option String)
    (st : JobState) (m : Member) (base delta : List DeviceE) (d0 : String)
    (hdev : st.store.devices = base ++ delta)
    (hbase : ∀ d ∈ base, d.name ≠ vc.name ++ "-" ++ toString m.member_id)
    (hcnt : cnt delta (vc.name ++ "-" ++ toString m.member_id) ≤ 1)
    (hwf : Store.wfIds st.store)
    (hchain : dtLookupChain st.store.deviceTypes m.model = some d0) :
    ∃ delta' : List DeviceE,
      (cvcStep vc dr pf site region st m).store.devices = base ++ delta' ∧
      (cvcStep vc dr pf site region st m).store.deviceTypes = st.store.deviceTypes ∧
      (cvcStep vc dr pf site region st m).store.vcs = st.store.vcs ∧
      Store.wfIds (cvcStep vc dr pf site region st m).store ∧
      (∃ e, delta'.filter (fun d => d.name == vc.name ++ "-" ++ toString m.member_id)
          = [e] ∧
        e.virtual_chassis = some vc.vcId ∧ e.vc_position = some m.member_id) ∧
      (∀ n, n ≠ vc.name ++ "-" ++ toString m.member_id →
        delta'.filter (fun d => d.name == n) = delta.filter (fun d => d.name == n)) ∧
      delta'.length = delta.length +
        (if cnt delta (vc.name ++ "-" ++ toString m.member_id) == 0 then 1 else 0) ∧
      (cvcStep vc dr pf site region st m).stats.devices_created
        = st.stats.devices_created +
          (if cnt delta (vc.name ++ "-" ++ toString m.member_id) == 0 then 1 else 0) := by
  simp only [cvcStep]
  split
  next member_device hdevn =>
    have hmem : member_device ∈ st.store.devices := List.mem_of_find?_eq_some hdevn
    have hmemname : member_device.name = vc.name ++ "-" ++ toString m.member_id :=
      beq_iff_eq.mp (@List.find?_some _
        (fun d : DeviceE => d.name == vc.name ++ "-" ++ toString m.member_id)
        member_device _ hdevn)
    have hfd : delta.find?
        (fun d => d.name == vc.name ++ "-" ++ toString m.member_id)
          = some member_device := by
      unfold devNamed at hdevn
      rw [hdev, find?_base_delta base delta _ hbase] at hdevn
      exact hdevn
    have hfilter : delta.filter
        (fun d => d.name == vc.name ++ "-" ++ toString m.member_id)
          = [member_device] := filter_singleton_of_le_one delta _ member_device hfd hcnt
    have hcnt1 : cnt delta (vc.name ++ "-" ++ toString m.member_id) = 1 := by
      unfold cnt
      rw [hfilter]
      rfl
    have hmd : member_device ∈ delta := by
      have := List.mem_of_find?_eq_some hfd
      exact this
    -- the updated record
    refine ⟨delta.map (fun x =>
      if x.devId == member_device.devId
      then { member_device with
             virtual_chassis := some vc.vcId,
             vc_position := some m.member_id,
             vc_priority := vcPriorityFor m.role }
      else x), ?_, rfl, rfl, ?_, ?_, ?_, ?_, ?_⟩
    · show (saveDevice st.store _).devices = _
      unfold saveDevice
      rw [hdev, List.map_append]
      have hbid : base.map (fun x =>
          if x.devId == member_device.devId
          then { member_device with
                 virtual_chassis := some vc.vcId,
                 vc_position := some m.member_id,
                 vc_priority := vcPriorityFor m.role }
          else x) = base := by
        apply map_of_untouched
        intro b hb
        rw [if_neg]
        intro hid
        have hb2 : b ∈ st.store.devices := by
          rw [hdev]; exact List.mem_append_left _ hb
        have hbeq : b = member_device :=
          List.inj_on_of_nodup_map hwf.2 hb2 hmem (beq_iff_eq.mp hid)
        exact hbase b hb (by rw [hbeq, hmemname])
      rw [hbid]
    · exact saveDevice_wfIds st.store _ (hwf.1 member_device hmem) hwf
    · refine ⟨{ member_device with
          virtual_chassis := some vc.vcId,
          vc_position := some m.member_id,
          vc_priority := vcPriorityFor m.role }, ?_, rfl, rfl⟩
      rw [filter_map_of_name _ _ delta ?hnames, hfilter, List.map_cons, List.map_nil,
        if_pos (by exact beq_self_eq_true _)]
      case hnames =>
        intro x hx
        by_cases hid : (x.devId == member_device.devId) = true
        · rw [if_pos hid]
          have hx2 : x ∈ st.store.devices := by
            rw [hdev]; exact List.mem_append_right _ hx
          have hxeq : x = member_device :=
            List.inj_on_of_nodup_map hwf.2 hx2 hmem (beq_iff_eq.mp hid)
          rw [hxeq]
        · rw [if_neg hid]
    · intro n hn
      rw [filter_map_of_name _ _ delta ?hnames2]
      case hnames2 =>
        intro x hx
        by_cases hid : (x.devId == member_device.devId) = true
        · rw [if_pos hid]
          have hx2 : x ∈ st.store.devices := by
            rw [hdev]; exact List.mem_append_right _ hx
          have hxeq : x = member_device :=
            List.inj_on_of_nodup_map hwf.2 hx2 hmem (beq_iff_eq.mp hid)
          rw [hxeq]
        · rw [if_neg hid]
      apply map_of_untouched
      intro x hx
      rw [if_neg]
      intro hid
      have hxd : x ∈ delta := List.mem_of_mem_filter hx
      have hx2 : x ∈ st.store.devices := by
        rw [hdev]; exact List.mem_append_right _ hxd
      have hxeq : x = member_device :=
        List.inj_on_of_nodup_map hwf.2 hx2 hmem (beq_iff_eq.mp hid)
      have hxn : x.name = n :=
        beq_iff_eq.mp (@List.of_mem_filter _ (fun d : DeviceE => d.name == n) x delta hx)
      exact hn (by rw [← hxn, hxeq, hmemname])
    · rw [List.length_map, hcnt1]
      rfl
    · rw [hcnt1]
      rfl
  next hdevn =>
    have hfd : delta.find?
        (fun d => d.name == vc.name ++ "-" ++ toString m.member_id) = none := by
      unfold devNamed at hdevn
      rw [hdev, find?_base_delta base delta _ hbase] at hdevn
      exact hdevn
    have hfilter : delta.filter
        (fun d => d.name == vc.name ++ "-" ++ toString m.member_id) = [] :=
      filter_nil_of_find?_none delta _ hfd
    have hcnt0 : cnt delta (vc.name ++ "-" ++ toString m.member_id) = 0 := by
      unfold cnt
      rw [hfilter]
      rfl
    obtain ⟨d, heq, hdevid, hdname, hdvc, hdpos, _⟩ :=
      createMemberIn_creates st vc (vc.name ++ "-" ++ toString m.member_id) m
        dr pf site region d0 hchain
    obtain ⟨hed, hen, hev, het⟩ := ensureJuniper_frame st.store
    refine ⟨delta ++ [d], ?_, ?_, ?_, ?_, ?_, ?_, ?_, ?_⟩
    · rw [heq]
      show (ensureJuniper st.store).devices ++ [d] = _
      rw [hed, hdev, List.append_assoc]
    · rw [heq]
      show (ensureJuniper st.store).deviceTypes = _
      rw [het]
    · rw [heq]
      show (ensureJuniper st.store).vcs = _
      rw [hev]
    · apply wfIds_extend st.store _ d ?h1 hdevid ?h2 hwf
      case h1 =>
        rw [heq]
        show (ensureJuniper st.store).devices ++ [d] = _
        rw [hed]
      case h2 =>
        rw [heq]
        show (ensureJuniper st.store).nextId + 1 = _
        rw [hen]
    · refine ⟨d, ?_, hdvc, hdpos⟩
      rw [List.filter_append, hfilter]
      show List.filter (fun x : DeviceE =>
        x.name == vc.name ++ "-" ++ toString m.member_id) [d] = [d]
      rw [@List.filter_cons_of_pos _
        (fun x : DeviceE => x.name == vc.name ++ "-" ++ toString m.member_id) d []
        (by show (d.name == vc.name ++ "-" ++ toString m.member_id) = true
            rw [hdname]; exact beq_self_eq_true _)]
      rfl
    · intro n hn
      rw [List.filter_append]
      have : List.filter (fun x : DeviceE => x.name == n) [d] = [] := by
        rw [@List.filter_cons_of_neg _ (fun x : DeviceE => x.name == n) d []
          (by show ¬(d.name == n) = true
              rw [hdname]; exact fun hc => hn (beq_iff_eq.mp hc).symm)]
        rfl
      rw [this, List.append_nil]
    · rw [List.length_append, hcnt0]
      rfl
    · rw [heq, hcnt0]
      rfl

/-- The member loop of `create_virtual_chassis` as a whole: with distinct
member names whose device types all resolve, a base table free of the
member names and a working suffix holding each member name at most once,
the loop leaves every member name on exactly one device of the suffix,
attached to the chassis at the member position; other names keep their
rows, and the suffix and the created counter grow by the number of member
names that were free. -/
theorem cvc_loop_char (vc : VCE) (dr pf : String) (site region : Option String) :
    ∀ (rest : List Member) (st : JobState) (base delta : List DeviceE),
      st.store.devices = base ++ delta →
      (∀ d ∈ base, ∀ mm ∈ rest, d.name ≠ vc.name ++ "-" ++ toString mm.member_id) →
      (∀ mm ∈ rest, ∃ d1, dtLookupChain st.store.deviceTypes mm.model = some d1) →
      (rest.map (fun mm => vc.name ++ "-" ++ toString mm.member_id)).Nodup →
      (∀ mm ∈ rest, cnt delta (vc.name ++ "-" ++ toString mm.member_id) ≤ 1) →
      Store.wfIds st.store →
      ∃ delta' : List DeviceE,
        (rest.foldl (cvcStep vc dr pf site region) st).store.devices = base ++ delta' ∧
        (rest.foldl (cvcStep vc dr pf site region) st).store.deviceTypes
            = st.store.deviceTypes ∧
        (rest.foldl (cvcStep vc dr pf site region) st).store.vcs = st.store.vcs ∧
        Store.wfIds (rest.foldl (cvcStep vc dr pf site region) st).store ∧
        (∀ mm ∈ rest, ∃ e,
          delta'.filter (fun d => d.name == vc.name ++ "-" ++ toString mm.member_id)
              = [e] ∧
          e.virtual_chassis = some vc.vcId ∧ e.vc_position = some mm.member_id) ∧
        (∀ n, (∀ mm ∈ rest, n ≠ vc.name ++ "-" ++ toString mm.member_id) →
          delta'.filter (fun d => d.name == n)
              = delta.filter (fun d => d.name == n)) ∧
        delta'.length = delta.length +
          (rest.filter
            (fun mm => cnt delta (vc.name ++ "-" ++ toString mm.member_id) == 0)).length ∧
        (rest.foldl (cvcStep vc dr pf site region) st).stats.devices_created
          = st.stats.devices_created +
            (rest.filter
              (fun mm => cnt delta (vc.name ++ "-" ++ toString mm.member_id) == 0)).length := by
  intro rest
  induction rest with
  | nil =>
    intro st base delta hdev _ _ _ _ hwf
    exact ⟨delta, hdev, rfl, rfl, hwf,
      fun mm hmm => absurd hmm (List.not_mem_nil mm),
      fun n _ => rfl, rfl, rfl⟩
  | cons m rest ih =>
    intro st base delta hdev hbase hchain hnd hcnt hwf
    rw [List.foldl_cons]
    obtain ⟨dd1, hc1⟩ := hchain m (List.mem_cons_self m rest)
    obtain ⟨delta1, s1, s2, s3, s4, ⟨em, s5f, s5v, s5p⟩, s6, s7, s8⟩ :=
      cvcStep_char vc dr pf site region st m base delta dd1 hdev
        (fun d hd => hbase d hd m (List.mem_cons_self m rest))
        (hcnt m (List.mem_cons_self m rest)) hwf hc1
    have hheadnm : vc.name ++ "-" ++ toString m.member_id ∉
        rest.map (fun mm => vc.name ++ "-" ++ toString mm.member_id) :=
      (List.nodup_cons.mp hnd).1
    have hndm : ∀ mm ∈ rest,
        vc.name ++ "-" ++ toString mm.member_id
          ≠ vc.name ++ "-" ++ toString m.member_id := by
      intro mm hmm heq
      exact hheadnm (heq ▸ List.mem_map_of_mem _ hmm)
    have hcpres : ∀ mm ∈ rest,
        cnt delta1 (vc.name ++ "-" ++ toString mm.member_id)
          = cnt delta (vc.name ++ "-" ++ toString mm.member_id) := by
      intro mm hmm
      unfold cnt
      rw [s6 _ (hndm mm hmm)]
    obtain ⟨delta2, t1, t2, t3, t4, t5, t6, t7, t8⟩ :=
      ih (cvcStep vc dr pf site region st m) base delta1 s1
        (fun d hd mm hmm => hbase d hd mm (List.mem_cons_of_mem m hmm))
        (fun mm hmm => by
          obtain ⟨d1, hc⟩ := hchain mm (List.mem_cons_of_mem m hmm)
          exact ⟨d1, by rw [s2]; exact hc⟩)
        (List.nodup_cons.mp hnd).2
        (fun mm hmm => by rw [hcpres mm hmm]; exact hcnt mm (List.mem_cons_of_mem m hmm))
        s4
    have hfc : rest.filter
          (fun mm => cnt delta1 (vc.name ++ "-" ++ toString mm.member_id) == 0)
        = rest.filter
          (fun mm => cnt delta (vc.name ++ "-" ++ toString mm.member_id) == 0) :=
      List.filter_congr (fun mm hmm => by rw [hcpres mm hmm])
    refine ⟨delta2, t1, by rw [t2, s2], by rw [t3, s3], t4, ?_, ?_, ?_, ?_⟩
    · intro mm hmm
      rcases List.mem_cons.mp hmm with heq | hmm2
      · subst heq
        refine ⟨em, ?_, s5v, s5p⟩
        rw [t6 _ (fun mm2 hmm2 => (hndm mm2 hmm2).symm)]
        exact s5f
      · exact t5 mm hmm2
    · intro n hn
      rw [t6 n (fun mm hmm => hn mm (List.mem_cons_of_mem m hmm)),
        s6 n (hn m (List.mem_cons_self m rest))]
    · rw [t7, hfc, s7]
      by_cases hq : (cnt delta (vc.name ++ "-" ++ toString m.member_id) == 0) = true
      · rw [if_pos hq,
          @List.filter_cons_of_pos _
            (fun mm : Member => cnt delta (vc.name ++ "-" ++ toString mm.member_id) == 0)
            m rest hq,
          List.length_cons]
        omega
      · rw [if_neg hq,
          @List.filter_cons_of_neg _
            (fun mm : Member => cnt delta (vc.name ++ "-" ++ toString mm.member_id) == 0)
            m rest hq]
        omega
    · rw [t8, hfc, s8]
      by_cases hq : (cnt delta (vc.name ++ "-" ++ toString m.member_id) == 0) = true
      · rw [if_pos hq,
          @List.filter_cons_of_pos _
            (fun mm : Member => cnt delta (vc.name ++ "-" ++ toString mm.member_id) == 0)
            m rest hq,
          List.length_cons]
        omega
      · rw [if_neg hq,
          @List.filter_cons_of_neg _
            (fun mm : Member => cnt delta (vc.name ++ "-" ++ toString mm.member_id) == 0)
            m rest hq]
        omega

theorem length_filter_ne_of_nodup {α : Type _} (f : α → String) :
    ∀ (l : List α) (x : α), (l.map f).Nodup → x ∈ l →
      (l.filter (fun y => !(f y == f x))).length = l.length - 1 := by
  intro l
  induction l with
  | nil => intro x _ hx; exact absurd hx (List.not_mem_nil x)
  | cons a t ih =>
    intro x hnd hx
    have hhead : f a ∉ t.map f := (List.nodup_cons.mp hnd).1
    rcases List.mem_cons.mp hx with rfl | hxt
    · rw [@List.filter_cons_of_neg _ (fun y => !(f y == f x)) x t
        (by show ¬(!(f x == f x)) = true
            rw [beq_self_eq_true]; exact fun hc => Bool.false_ne_true hc)]
      have : t.filter (fun y => !(f y == f x)) = t := by
        apply List.filter_eq_self.mpr
        intro y hy
        have : ¬(f y == f x) = true := by
          intro hc
          exact hhead (beq_iff_eq.mp hc ▸ List.mem_map_of_mem f hy)
        simp [this]
      rw [this]
      rfl
    · have hfa : (f a == f x) = false := by
        rw [beq_eq_false_iff_ne]
        intro hc
        exact hhead (hc ▸ List.mem_map_of_mem f hxt)
      rw [@List.filter_cons_of_pos _ (fun y => !(f y == f x)) a t
          (by show (!(f a == f x)) = true
              rw [hfa]; rfl),
        List.length_cons, ih x (List.nodup_cons.mp hnd).2 hxt]
      have := List.length_pos_of_mem hxt
      simp only [List.length_cons]
      omega

theorem find?_devId_of_nodup :
    ∀ (l : List DeviceE) (x : DeviceE),
      (l.map (fun d => d.devId)).Nodup → x ∈ l →
      l.find? (fun d => d.devId == x.devId) = some x := by
  intro l
  induction l with
  | nil => intro x _ hx; exact absurd hx (List.not_mem_nil x)
  | cons a t ih =>
    intro x hnd hx
    by_cases ha : (a.devId == x.devId) = true
    · rw [@List.find?_cons_of_pos _ (fun d : DeviceE => d.devId == x.devId) a t ha]
      have hax : a = x :=
        List.inj_on_of_nodup_map hnd (List.mem_cons_self a t) hx (beq_iff_eq.mp ha)
      rw [hax]
    · rw [@List.find?_cons_of_neg _ (fun d : DeviceE => d.devId == x.devId) a t ha]
      have hxt : x ∈ t := by
        rcases List.mem_cons.mp hx with rfl | h
        · exact absurd (beq_self_eq_true x.devId) ha
        · exact h
      exact ih x (List.nodup_cons.mp hnd).2 hxt

/-- `create_virtual_chassis` on a store whose only device under a member
name is the freshly created master: exactly one chassis is appended, every
member ends up with exactly one device named `vc_name-member_id` attached
at its position, the device table grows by one row per non-master member,
and the chassis master is re-pointed at the device named after the first
member of the group. -/
theorem cvc_char (st : JobState) (dn : String) (Md : DeviceE)
    (members : List Member) (site region : Option String)
    (base : List DeviceE) (m0 mm0 : Member) (mrest : List Member)
    (hmem : members = m0 :: mrest)
    (hmm0 : mm0 ∈ members)
    (hMdname : Md.name = dn ++ "-" ++ toString mm0.member_id)
    (hdev : st.store.devices = base ++ [Md])
    (hbase : ∀ d ∈ base, ∀ mm ∈ members,
      d.name ≠ dn ++ "-" ++ toString mm.member_id)
    (hchain : ∀ mm ∈ members,
      ∃ d1, dtLookupChain st.store.deviceTypes mm.model = some d1)
    (hnames : (members.map (fun mm => dn ++ "-" ++ toString mm.member_id)).Nodup)
    (hwf : Store.wfIds st.store)
    (hwfV : ∀ v ∈ st.store.vcs, v.vcId < st.store.nextId) :
    ∃ st' vcF e delta',
      (create_virtual_chassis st dn Md members site region).2 = st' ∧
      st'.store.vcs = st.store.vcs ++ [vcF] ∧
      vcF.name = dn ∧
      vcF.master = some e.devId ∧
      deviceById st'.store e.devId = some e ∧
      e.name = dn ++ "-" ++ toString m0.member_id ∧
      e.vc_position = some m0.member_id ∧
      st'.store.devices = base ++ delta' ∧
      delta'.length = members.length ∧
      (∀ mm ∈ members, ∃ e1,
        delta'.filter (fun d => d.name == dn ++ "-" ++ toString mm.member_id)
            = [e1] ∧
        e1.virtual_chassis = some vcF.vcId ∧
        e1.vc_position = some mm.member_id) ∧
      st'.stats.devices_created
          = st.stats.devices_created + (members.length - 1) ∧
      st'.stats.virtual_chassis_created
          = st.stats.virtual_chassis_created + 1 := by
  subst hmem
  obtain ⟨delta', t1, t2, t3, t4, t5, t6, t7, t8⟩ :=
    cvc_loop_char (cvcNewVC st dn Md) Md.device_role Md.platform site region
      (m0 :: mrest) (cvcInit st (cvcNewVC st dn Md)) base [Md]
      (by show st.store.devices = base ++ [Md]; exact hdev)
      (by intro d hd mm hmm
          show d.name ≠ dn ++ "-" ++ toString mm.member_id
          exact hbase d hd mm hmm)
      (by intro mm hmm
          obtain ⟨d1, hc⟩ := hchain mm hmm
          exact ⟨d1, by
            show dtLookupChain st.store.deviceTypes mm.model = some d1
            exact hc⟩)
      (by show ((m0 :: mrest).map
            (fun mm => dn ++ "-" ++ toString mm.member_id)).Nodup
          exact hnames)
      (fun mm _ => by unfold cnt; exact List.length_filter_le _ _)
      (wfIds_relax st.store _ rfl (Nat.le_succ _) hwf)
  have t5d := t5
  simp only [cvcNewVC] at t5d
  have hm0 : m0 ∈ m0 :: mrest := List.mem_cons_self m0 mrest
  obtain ⟨e, he1, he2, he3⟩ := t5d m0 hm0
  have hmemE : e ∈ List.filter
      (fun d : DeviceE => d.name == dn ++ "-" ++ toString m0.member_id) delta' := by
    rw [he1]; exact List.mem_cons_self e []
  have hename : e.name = dn ++ "-" ++ toString m0.member_id :=
    beq_iff_eq.mp (@List.of_mem_filter _
      (fun d : DeviceE => d.name == dn ++ "-" ++ toString m0.member_id) e delta' hmemE)
  have hedev : e ∈ delta' := List.mem_of_mem_filter hmemE
  have hbf : List.filter
      (fun d : DeviceE => d.name == dn ++ "-" ++ toString m0.member_id) base = [] := by
    apply List.filter_eq_nil_iff.mpr
    intro d hd hc
    exact hbase d hd m0 hm0 (beq_iff_eq.mp hc)
  have hGet : devGetUnique
      ((m0 :: mrest).foldl
        (cvcStep (cvcNewVC st dn Md) Md.device_role Md.platform site region)
        (cvcInit st (cvcNewVC st dn Md))).store
      (dn ++ "-" ++ toString m0.member_id) = some e := by
    unfold devGetUnique
    rw [t1, List.filter_append, hbf, he1]
    rfl
  have hnodup : ((base ++ delta').map (fun d => d.devId)).Nodup := by
    have h := t4.2
    rw [t1] at h
    exact h
  have hLdn : ((m0 :: mrest).filter
      (fun mm => cnt [Md] (dn ++ "-" ++ toString mm.member_id) == 0)).length
        = (m0 :: mrest).length - 1 := by
    have hpt : ∀ mm ∈ m0 :: mrest,
        (cnt [Md] (dn ++ "-" ++ toString mm.member_id) == 0)
          = (!((dn ++ "-" ++ toString mm.member_id)
              == (dn ++ "-" ++ toString mm0.member_id))) := by
      intro mm _
      by_cases heq : (dn ++ "-" ++ toString mm.member_id)
          = (dn ++ "-" ++ toString mm0.member_id)
      · have h1 : (Md.name == dn ++ "-" ++ toString mm.member_id) = true := by
          rw [hMdname, heq]
          exact beq_self_eq_true _
        have hcnt1 : cnt [Md] (dn ++ "-" ++ toString mm.member_id) = 1 := by
          unfold cnt
          rw [@List.filter_cons_of_pos _
            (fun d : DeviceE => d.name == dn ++ "-" ++ toString mm.member_id) Md []
            (by show (Md.name == dn ++ "-" ++ toString mm.member_id) = true
                exact h1)]
          rfl
        rw [hcnt1, heq, beq_self_eq_true]
        rfl
      · have h1 : (Md.name == dn ++ "-" ++ toString mm.member_id) = false := by
          rw [hMdname, beq_eq_false_iff_ne]
          exact fun hc => heq hc.symm
        have hcnt0 : cnt [Md] (dn ++ "-" ++ toString mm.member_id) = 0 := by
          unfold cnt
          rw [@List.filter_cons_of_neg _
            (fun d : DeviceE => d.name == dn ++ "-" ++ toString mm.member_id) Md []
            (by show ¬(Md.name == dn ++ "-" ++ toString mm.member_id) = true
                rw [h1]; exact Bool.false_ne_true)]
          rfl
        rw [hcnt0, beq_eq_false_iff_ne.mpr heq]
        rfl
    rw [List.filter_congr hpt]
    exact length_filter_ne_of_nodup
      (fun mm => dn ++ "-" ++ toString mm.member_id) (m0 :: mrest) mm0 hnames hmm0
  have hLraw : ((m0 :: mrest).filter
      (fun mm => cnt [Md]
        ((cvcNewVC st dn Md).name ++ "-" ++ toString mm.member_id) == 0)).length
        = (m0 :: mrest).length - 1 := by
    dsimp only [cvcNewVC]
    exact hLdn
  have hlen : delta'.length = (m0 :: mrest).length := by
    rw [t7, hLraw]
    show 1 + ((m0 :: mrest).length - 1) = (m0 :: mrest).length
    simp only [List.length_cons]
    omega
  have hvccFold : ((m0 :: mrest).foldl
      (cvcStep (cvcNewVC st dn Md) Md.device_role Md.platform site region)
      (cvcInit st (cvcNewVC st dn Md))).stats.virtual_chassis_created
        = (cvcInit st (cvcNewVC st dn Md)).stats.virtual_chassis_created :=
    foldl_proj_eq _ (fun s => s.stats.virtual_chassis_created)
      (fun s a => (cvcStep_frame (cvcNewVC st dn Md) Md.device_role Md.platform
        site region s a).2.2.2.2.2.1)
      (m0 :: mrest) (cvcInit st (cvcNewVC st dn Md))
  simp only [create_virtual_chassis]
  rw [hGet]
  dsimp only
  by_cases hmas : ((cvcNewVC st dn Md).master == some e.devId) = true
  · rw [if_pos hmas]
    refine ⟨_, cvcNewVC st dn Md, e, delta', rfl, ?_, rfl,
      beq_iff_eq.mp hmas, ?_, hename, he3, t1, hlen, ?_, ?_, ?_⟩
    · show ((m0 :: mrest).foldl
          (cvcStep (cvcNewVC st dn Md) Md.device_role Md.platform site region)
          (cvcInit st (cvcNewVC st dn Md))).store.vcs
        = st.store.vcs ++ [cvcNewVC st dn Md]
      rw [t3]
      rfl
    · show List.find? (fun d : DeviceE => d.devId == e.devId)
          ((m0 :: mrest).foldl
            (cvcStep (cvcNewVC st dn Md) Md.device_role Md.platform site region)
            (cvcInit st (cvcNewVC st dn Md))).store.devices = some e
      rw [t1]
      exact find?_devId_of_nodup (base ++ delta') e hnodup
        (List.mem_append_right _ hedev)
    · intro mm hmm
      obtain ⟨e1, a, b, c⟩ := t5d mm hmm
      exact ⟨e1, a, b, c⟩
    · show ((m0 :: mrest).foldl
          (cvcStep (cvcNewVC st dn Md) Md.device_role Md.platform site region)
          (cvcInit st (cvcNewVC st dn Md))).stats.devices_created
        = st.stats.devices_created + ((m0 :: mrest).length - 1)
      rw [t8, hLraw]
      rfl
    · show ((m0 :: mrest).foldl
          (cvcStep (cvcNewVC st dn Md) Md.device_role Md.platform site region)
          (cvcInit st (cvcNewVC st dn Md))).stats.virtual_chassis_created + 1
        = st.stats.virtual_chassis_created + 1
      rw [hvccFold]
      rfl
  · rw [if_neg hmas]
    refine ⟨_, { cvcNewVC st dn Md with master := some e.devId }, e, delta',
      rfl, ?_, rfl, rfl, ?_, hename, he3, t1, hlen, ?_, ?_, ?_⟩
    · show (((m0 :: mrest).foldl
          (cvcStep (cvcNewVC st dn Md) Md.device_role Md.platform site region)
          (cvcInit st (cvcNewVC st dn Md))).store.vcs.map
            (fun v => if v.vcId == (cvcNewVC st dn Md).vcId
              then { v with master := some e.devId } else v))
        = st.store.vcs ++ [{ cvcNewVC st dn Md with master := some e.devId }]
      rw [t3]
      show (st.store.vcs ++ [cvcNewVC st dn Md]).map _ = _
      rw [List.map_append]
      have h1 : st.store.vcs.map
          (fun v => if v.vcId == (cvcNewVC st dn Md).vcId
            then { v with master := some e.devId } else v) = st.store.vcs := by
        apply map_of_untouched
        intro v hv
        have hne : ¬ (v.vcId == (cvcNewVC st dn Md).vcId) = true := by
          intro hc
          have hlt := hwfV v hv
          have : v.vcId = st.store.nextId := beq_iff_eq.mp hc
          rw [this] at hlt
          exact absurd hlt (lt_irrefl _)
        show (if (v.vcId == (cvcNewVC st dn Md).vcId) = true
          then { v with master := some e.devId } else v) = v
        rw [if_neg hne]
      rw [h1]
      show _ ++ [if ((cvcNewVC st dn Md).vcId == (cvcNewVC st dn Md).vcId) = true
        then { cvcNewVC st dn Md with master := some e.devId }
        else cvcNewVC st dn Md] = _
      rw [if_pos (beq_self_eq_true _)]
    · show List.find? (fun d : DeviceE => d.devId == e.devId)
          ((m0 :: mrest).foldl
            (cvcStep (cvcNewVC st dn Md) Md.device_role Md.platform site region)
            (cvcInit st (cvcNewVC st dn Md))).store.devices = some e
      rw [t1]
      exact find?_devId_of_nodup (base ++ delta') e hnodup
        (List.mem_append_right _ hedev)
    · intro mm hmm
      obtain ⟨e1, a, b, c⟩ := t5d mm hmm
      exact ⟨e1, a, b, c⟩
    · show ((m0 :: mrest).foldl
          (cvcStep (cvcNewVC st dn Md) Md.device_role Md.platform site region)
          (cvcInit st (cvcNewVC st dn Md))).stats.devices_created
        = st.stats.devices_created + ((m0 :: mrest).length - 1)
      rw [t8, hLraw]
      rfl
    · show ((m0 :: mrest).foldl
          (cvcStep (cvcNewVC st dn Md) Md.device_role Md.platform site region)
          (cvcInit st (cvcNewVC st dn Md))).stats.virtual_chassis_created + 1
        = st.stats.virtual_chassis_created + 1
      rw [hvccFold]
      rfl

/-- C6: creation of multi-member groups.  For a group with more than one
member for which neither the chassis, nor a bare-named device, nor any
position-suffixed member device pre-exists (and whose role, platform and
device types resolve), the engine appends exactly one chassis named after
the group, appends exactly one device per member of the group (each name
`group-member_id` held by exactly one new device, attached to the chassis
at its member position), and the chassis master reference resolves to the
device named after the first member of the sorted group — the member
whose position is the group minimum. -/
theorem c6_multi_member_creation (st : JobState) (dn : String)
    (members : List Member) (m0 m1 : Member) (mrest : List Member)
    (p : String) (s' : Store)
    (hmem : members = m0 :: m1 :: mrest)
    (hrole : st.store.roles.contains (extract_device_role dn) = true)
    (hplat : get_platform_s st.store = some (p, s'))
    (hnovc : vcByMasterName st.store dn = none)
    (hnobare : devNamed st.store dn = none)
    (hnomember : ∀ mm ∈ members, ∀ d ∈ st.store.devices,
      d.name ≠ dn ++ "-" ++ toString mm.member_id)
    (hchain : ∀ mm ∈ members, ∃ d1,
      dtLookupChain st.store.deviceTypes mm.model = some d1)
    (hnames : (members.map (fun mm => dn ++ "-" ++ toString mm.member_id)).Nodup)
    (hwf : Store.wfIds st.store)
    (hwfV : ∀ v ∈ st.store.vcs, v.vcId < st.store.nextId)
    (hmin : ∀ mm ∈ members, m0.member_id ≤ mm.member_id) :
    ∃ st' vcF e,
      process_virtual_chassis st dn members = some st' ∧
      st'.store.vcs = st.store.vcs ++ [vcF] ∧
      vcF.name = dn ∧
      st'.stats.virtual_chassis_created
          = st.stats.virtual_chassis_created + 1 ∧
      (∃ delta', st'.store.devices = st.store.devices ++ delta' ∧
        delta'.length = members.length ∧
        ∀ mm ∈ members, ∃ e1,
          delta'.filter (fun d => d.name == dn ++ "-" ++ toString mm.member_id)
              = [e1] ∧
          e1.virtual_chassis = some vcF.vcId ∧
          e1.vc_position = some mm.member_id) ∧
      st'.stats.devices_created = st.stats.devices_created + members.length ∧
      vcF.master = some e.devId ∧
      deviceById st'.store e.devId = some e ∧
      e.name = dn ++ "-" ++ toString m0.member_id ∧
      e.vc_position = some m0.member_id ∧
      (∀ mm ∈ members, m0.member_id ≤ mm.member_id) := by
  obtain ⟨hpd, hpv, hpn, hpt, _, _, _⟩ := get_platform_s_shape st.store p s' hplat
  rw [process_eq_withRole st dn members p s' hrole hplat]
  subst hmem
  set FC := parse_facility_code st.store dn with hFC
  set SR := find_site_by_facility_code st.store FC with hSR
  set SW := { siteWarnState st dn SR.1 FC with store := s' } with hSWdef
  simp only [processWithRole]
  have h1 : vcByMasterName SW.store dn = none := by
    show vcByMasterName s' dn = none
    rw [vcByMasterName_congr st.store s' hpd hpv]
    exact hnovc
  rw [h1]
  have h2 : devNamed SW.store dn = none := by
    show devNamed s' dn = none
    rw [devNamed_congr st.store s' hpd]
    exact hnobare
  rw [h2]
  dsimp only
  set MM := ((m0 :: m1 :: mrest).find? (fun m => pyLower m.role == "master")).getD m0
    with hMM
  set SITE := SR.1.map (fun s => s.name) with hSITE
  set REGION := SR.2 with hREGION
  have hmmMem : MM ∈ m0 :: m1 :: mrest := by
    rw [hMM]
    cases hf : (m0 :: m1 :: mrest).find? (fun m => pyLower m.role == "master") with
    | none => exact List.mem_cons_self m0 (m1 :: mrest)
    | some x => exact List.mem_of_find?_eq_some hf
  obtain ⟨d0, hd0⟩ := hchain MM hmmMem
  have hd0' : dtLookupChain SW.store.deviceTypes MM.model = some d0 := by
    show dtLookupChain s'.deviceTypes MM.model = some d0
    rw [hpt]
    exact hd0
  obtain ⟨Md, heqCD, hMdid, hMdname, _, _, _, _⟩ :=
    create_device_creates SW dn MM (extract_device_role dn) p SITE REGION d0 hd0'
  rw [heqCD]
  dsimp only
  rw [if_pos (by simp only [List.length_cons]; omega :
    (m0 :: m1 :: mrest).length > 1)]
  set ST1 := { SW with
    store := { ensureJuniper SW.store with
               devices := (ensureJuniper SW.store).devices ++ [Md],
               nextId := (ensureJuniper SW.store).nextId + 1 },
    stats := { SW.stats with
               devices_created := SW.stats.devices_created + 1 } } with hST1def
  have hdev1 : ST1.store.devices = st.store.devices ++ [Md] := by
    show (ensureJuniper SW.store).devices ++ [Md] = st.store.devices ++ [Md]
    rw [(ensureJuniper_frame SW.store).1]
    show s'.devices ++ [Md] = st.store.devices ++ [Md]
    rw [hpd]
  have hbase1 : ∀ d ∈ st.store.devices, ∀ mm ∈ m0 :: m1 :: mrest,
      d.name ≠ dn ++ "-" ++ toString mm.member_id :=
    fun d hd mm hmm => hnomember mm hmm d hd
  have hchain1 : ∀ mm ∈ m0 :: m1 :: mrest, ∃ d1,
      dtLookupChain ST1.store.deviceTypes mm.model = some d1 := by
    intro mm hmm
    obtain ⟨d1, hc⟩ := hchain mm hmm
    refine ⟨d1, ?_⟩
    show dtLookupChain (ensureJuniper SW.store).deviceTypes mm.model = some d1
    rw [(ensureJuniper_frame SW.store).2.2.2]
    show dtLookupChain s'.deviceTypes mm.model = some d1
    rw [hpt]
    exact hc
  have hwfs' : Store.wfIds s' := wfIds_congr st.store s' hpd hpn hwf
  have hwf1 : Store.wfIds ST1.store := by
    apply wfIds_extend s' ST1.store Md ?_ hMdid ?_ hwfs'
    · show (ensureJuniper SW.store).devices ++ [Md] = s'.devices ++ [Md]
      rw [(ensureJuniper_frame SW.store).1]
    · show (ensureJuniper SW.store).nextId + 1 = s'.nextId + 1
      rw [(ensureJuniper_frame SW.store).2.1]
  have hwfV1 : ∀ v ∈ ST1.store.vcs, v.vcId < ST1.store.nextId := by
    intro v hv
    have hv1 : v ∈ (ensureJuniper SW.store).vcs := hv
    rw [(ensureJuniper_frame SW.store).2.2.1] at hv1
    have hv2 : v ∈ s'.vcs := hv1
    rw [hpv] at hv2
    have hlt := hwfV v hv2
    show v.vcId < (ensureJuniper SW.store).nextId + 1
    rw [(ensureJuniper_frame SW.store).2.1]
    show v.vcId < s'.nextId + 1
    rw [hpn]
    exact Nat.lt_succ_of_lt hlt
  obtain ⟨st2, vcF, e, delta', h0, g1, g2, g3, g4, g5, g6, g7, g8, g9, g10, g11⟩ :=
    cvc_char ST1 dn Md (m0 :: m1 :: mrest) SITE REGION st.store.devices
      m0 MM (m1 :: mrest) rfl hmmMem hMdname hdev1 hbase1 hchain1 hnames hwf1 hwfV1
  rw [h0]
  refine ⟨st2, vcF, e, rfl, ?_, g2, ?_, ⟨delta', g7, g8, g9⟩, ?_, g3, g4, g5, g6, hmin⟩
  · rw [g1]
    show (ensureJuniper SW.store).vcs ++ [vcF] = st.store.vcs ++ [vcF]
    rw [(ensureJuniper_frame SW.store).2.2.1]
    show s'.vcs ++ [vcF] = st.store.vcs ++ [vcF]
    rw [hpv]
  · rw [g11]
    show (siteWarnState st dn SR.1 FC).stats.virtual_chassis_created + 1
        = st.stats.virtual_chassis_created + 1
    rw [(siteWarnState_frame st dn SR.1 FC).2.2.2.2.2.2.2.1]
  · rw [g10]
    show (siteWarnState st dn SR.1 FC).stats.devices_created + 1
          + ((m0 :: m1 :: mrest).length - 1)
        = st.stats.devices_created + (m0 :: m1 :: mrest).length
    rw [(siteWarnState_frame st dn SR.1 FC).2.2.2.1]
    simp only [List.length_cons]
    omega

def c6store : Store :=
  { sites := [], devices := [], vcs := [], deviceTypes := ["EX4300-48P"],
    roles := ["Access"], manufacturers := ["Juniper"],
    platforms := [{ name := "Juniper_junos", slug := "juniper-junos" }], nextId := 0 }

def c6m0 : Member :=
  { device_name := "accs-ho-414-2", member_id := 0, model := "EX4300-48P",
    software := "20.4", serial := "A0", mac_addr := "aa", role := "master",
    location := "" }

def c6m1 : Member :=
  { device_name := "accs-ho-414-2", member_id := 1, model := "EX4300-48P",
    software := "20.4", serial := "A1", mac_addr := "bb", role := "linecard",
    location := "" }

/-- Witness for C6: a two-member group against an empty device table. -/
theorem c6_multi_member_creation_witness :
    ∃ st' vcF e,
      process_virtual_chassis (startState c6store false) "accs-ho-414-2"
          [c6m0, c6m1] = some st' ∧
      st'.store.vcs = (startState c6store false).store.vcs ++ [vcF] ∧
      vcF.name = "accs-ho-414-2" ∧
      st'.stats.virtual_chassis_created
          = (startState c6store false).stats.virtual_chassis_created + 1 ∧
      (∃ delta', st'.store.devices
            = (startState c6store false).store.devices ++ delta' ∧
        delta'.length = [c6m0, c6m1].length ∧
        ∀ mm ∈ [c6m0, c6m1], ∃ e1,
          delta'.filter
              (fun d => d.name == "accs-ho-414-2" ++ "-" ++ toString mm.member_id)
              = [e1] ∧
          e1.virtual_chassis = some vcF.vcId ∧
          e1.vc_position = some mm.member_id) ∧
      st'.stats.devices_created
          = (startState c6store false).stats.devices_created + [c6m0, c6m1].length ∧
      vcF.master = some e.devId ∧
      deviceById st'.store e.devId = some e ∧
      e.name = "accs-ho-414-2" ++ "-" ++ toString c6m0.member_id ∧
      e.vc_position = some c6m0.member_id ∧
      (∀ mm ∈ [c6m0, c6m1], c6m0.member_id ≤ mm.member_id) :=
  c6_multi_member_creation (startState c6store false) "accs-ho-414-2"
    [c6m0, c6m1] c6m0 c6m1 [] "Juniper_junos" c6store
    (by decide) (by decide) (by decide) (by decide) (by decide) (by decide)
    (by intro mm hmm
        rcases List.mem_cons.mp hmm with rfl | hmm2
        · exact ⟨"EX4300-48P", by decide⟩
        · rcases List.mem_cons.mp hmm2 with rfl | hmm3
          · exact ⟨"EX4300-48P", by decide⟩
          · exact absurd hmm3 (List.not_mem_nil mm))
    (by decide) (⟨by decide, by decide⟩) (by decide) (by decide)

/-- C7 (amended): the site resolver tries the exact facility lookup first
and, when several records match, silently picks the first in store order
(no AmbiguousMatch or other warning exists on this path); on no exact
match it falls back to the first case-insensitive match; it never fails:
an absent or empty facility code, or no matching record, yields absent
site and absent region, and a resolved site is returned together with its
region. -/
theorem c7_amended_site_resolver (s : Store) (fc : String) :
    (∀ site rest, sitesExact s fc = site :: rest →
        _check_site_exists s fc = some site) ∧
    (sitesExact s fc = [] →
        _check_site_exists s fc = (sitesIexact s fc).head?) ∧
    (find_site_by_facility_code s none = (none, none)) ∧
    (find_site_by_facility_code s (some "") = (none, none)) ∧
    (fc ≠ "" → _check_site_exists s fc = none →
        find_site_by_facility_code s (some fc) = (none, none)) ∧
    (∀ site, fc ≠ "" → _check_site_exists s fc = some site →
        find_site_by_facility_code s (some fc) = (some site, site.region)) := by
  refine ⟨?_, ?_, rfl, rfl, ?_, ?_⟩
  · intro site rest h
    unfold _check_site_exists
    rw [h]
    cases rest with
    | nil => rfl
    | cons b t => rfl
  · intro h
    unfold _check_site_exists
    rw [h]
  · intro hne h
    have hbe : (fc == "") = false := beq_eq_false_iff_ne.mpr hne
    unfold find_site_by_facility_code
    dsimp only
    rw [hbe]
    rw [h]
    rfl
  · intro site hne h
    have hbe : (fc == "") = false := beq_eq_false_iff_ne.mpr hne
    unfold find_site_by_facility_code
    dsimp only
    rw [hbe]
    rw [h]
    rfl

/-- Witness for C7 (amended): the ambiguous facility code HO of
`c7store` resolves to the first of the two matching records, region
included. -/
theorem c7_amended_site_resolver_witness :
    _check_site_exists c7store "HO"
        = some { name := "SiteA", facility := "HO", region := some "R1" } ∧
    find_site_by_facility_code c7store (some "HO")
        = (some { name := "SiteA", facility := "HO", region := some "R1" },
           some "R1") :=
  ⟨(c7_amended_site_resolver c7store "HO").1
      { name := "SiteA", facility := "HO", region := some "R1" }
      [{ name := "SiteB", facility := "HO", region := some "R1" }] (by decide),
   (c7_amended_site_resolver c7store "HO").2.2.2.2.2
      { name := "SiteA", facility := "HO", region := some "R1" }
      (by decide)
      ((c7_amended_site_resolver c7store "HO").1
        { name := "SiteA", facility := "HO", region := some "R1" }
        [{ name := "SiteB", facility := "HO", region := some "R1" }] (by decide))⟩
